import Mathlib

/-!
# Verification of the query-planning / orchestration / response-synthesis core

A shallow embedding of the multi-agent pipeline of the
`sprinklr-historical-data-chatbot` repository:

* `src/agents/query_agent.py`  — query classification (`QueryAgent`),
* `src/agents/orchestrator.py` — plan execution (`Orchestrator`),
* `src/agents/response_agent.py` — synthesis (`ResponseAgent`),
* `src/config.py` — the `Config` class.

Python values are modelled explicitly: dictionary lookups with defaults
become `Option`-typed fields, Python truthiness is spelled out per type,
exceptions are an explicit `PyErr` in an `Except`, and the two
external collaborators (the vector store and the LLM completion client)
are parameters: the store is a record of total functions, the LLM a
record of per-call-site outcomes (raised exception, or the parsed JSON
object extracted from the returned text).
-/

set_option maxRecDepth 4000
set_option linter.unusedVariables false

namespace Chatbot

/-- Python exceptions that the embedded code can raise.  `apiErr` stands
for any exception coming out of an LLM client call; `overflowErr` is the
`OverflowError` a `date - timedelta` raises when the result leaves
`datetime`'s supported year range. -/
inductive PyErr where
  | attributeErr
  | valueErr
  | typeErr
  | overflowErr
  | apiErr
  deriving DecidableEq, Repr

instance {ε α : Type} [DecidableEq ε] [DecidableEq α] : DecidableEq (Except ε α)
  | .ok a, .ok b =>
    if h : a = b then .isTrue (by rw [h]) else .isFalse (fun hh => h (Except.ok.inj hh))
  | .ok _, .error _ => .isFalse Except.noConfusion
  | .error _, .ok _ => .isFalse Except.noConfusion
  | .error e, .error f =>
    if h : e = f then .isTrue (by rw [h]) else .isFalse (fun hh => h (Except.error.inj hh))

/-! ## Python string helpers -/

/-- The characters matched by `\s` in a Python `str` regex (ASCII part:
space, tab, newline, carriage return, vertical tab, form feed). -/
def isPySpace (c : Char) : Bool :=
  c = ' ' || c = '\t' || c = '\n' || c = '\r' || c = Char.ofNat 11 || c = Char.ofNat 12

/-- All suffixes of a character list, longest first (the start positions
tried by `re.search`). -/
def allTails : List Char → List (List Char)
  | [] => [[]]
  | c :: rest => (c :: rest) :: allTails rest

/-- Python's `needle in haystack` substring test. -/
def strContains (hay needle : String) : Bool :=
  (allTails hay.toList).any (fun t => needle.toList.isPrefixOf t)

/-- The `str.lower()` (ASCII range, which covers every pattern the source
compares against). -/
def strLower (s : String) : String :=
  ⟨s.data.map Char.toLower⟩

/-- The `s[:n]` — Python slices count code points, as does `List.take` on
the character list. -/
def strTake (s : String) (n : Nat) : String :=
  ⟨s.data.take n⟩

/-- The `str.split(sep)` for a one-character separator. -/
def splitOnCharAux (sep : Char) : List Char → List Char → List (List Char)
  | [], acc => [acc.reverse]
  | c :: rest, acc =>
    if c = sep then acc.reverse :: splitOnCharAux sep rest []
    else splitOnCharAux sep rest (c :: acc)

def splitOnChar (sep : Char) (s : String) : List String :=
  (splitOnCharAux sep s.data []).map fun l => ⟨l⟩

/-- The `str.replace(old, new)` for one-character `old`/`new` (the source
only ever replaces `"_"` with `" "`). -/
def strReplaceChar (s : String) (old new : Char) : String :=
  ⟨s.data.map fun c => if c = old then new else c⟩

/-- Python truthiness of an optional string (`None` and `""` are falsy). -/
def truthyStr : Option String → Bool
  | none => false
  | some s => s ≠ ""

/-- Python truthiness of an optional list (`None` and `[]` are falsy). -/
def truthyList {α : Type} : Option (List α) → Bool
  | none => false
  | some l => !l.isEmpty

/-- Python truthiness of an optional integer (`None` and `0` are falsy). -/
def truthyInt : Option Int → Bool
  | none => false
  | some n => n ≠ 0

/-- The expression `a or b` on optional strings, as Python evaluates it (first truthy
operand, else the second operand). -/
def pyOrStr (a : Option String) (b : String) : String :=
  if truthyStr a then a.getD b else b

/-! ## Dates

`datetime.strptime(current_date, "%Y-%m-%d")`, `timedelta` arithmetic,
`.weekday()`, `.replace(day=1)` and `strftime("%Y-%m-%d")`, embedded as
proleptic-Gregorian arithmetic on a year/month/day triple. -/

/-- A `datetime.date`-like value (time-of-day parts are never used by the
embedded code). -/
structure PyDate where
  y : Int
  m : Int
  d : Int
  deriving DecidableEq, Repr

def isLeapYear (y : Int) : Bool :=
  (y % 4 = 0 && y % 100 ≠ 0) || y % 400 = 0

def daysInMonth (y m : Int) : Int :=
  if m = 2 then (if isLeapYear y then 29 else 28)
  else if m = 4 || m = 6 || m = 9 || m = 11 then 30
  else 31

/-- A calendar date `datetime` would accept (`MINYEAR = 1`,
`MAXYEAR = 9999`). -/
def PyDate.valid (dt : PyDate) : Bool :=
  1 ≤ dt.y && dt.y ≤ 9999 && 1 ≤ dt.m && dt.m ≤ 12 &&
  1 ≤ dt.d && dt.d ≤ daysInMonth dt.y dt.m

/-- Days since 1970-01-01 of a civil date (standard civil-from-days
construction). -/
def PyDate.toDays (dt : PyDate) : Int :=
  let y := if dt.m ≤ 2 then dt.y - 1 else dt.y
  let era := (if 0 ≤ y then y else y - 399) / 400
  let yoe := y - era * 400
  let mp := (dt.m + 9) % 12
  let doy := (153 * mp + 2) / 5 + dt.d - 1
  let doe := yoe * 365 + yoe / 4 - yoe / 100 + doy
  era * 146097 + doe - 719468

/-- Civil date of a days-since-1970 count (inverse of `PyDate.toDays`). -/
def PyDate.ofDays (z0 : Int) : PyDate :=
  let z := z0 + 719468
  let era := (if 0 ≤ z then z else z - 146096) / 146097
  let doe := z - era * 146097
  let yoe := (doe - doe / 1460 + doe / 36524 - doe / 146096) / 365
  let y := yoe + era * 400
  let doy := doe - (365 * yoe + yoe / 4 - yoe / 100)
  let mp := (5 * doy + 2) / 153
  let d := doy - (153 * mp + 2) / 5 + 1
  let m := mp + (if mp < 10 then 3 else -9)
  ⟨(if m ≤ 2 then y + 1 else y), m, d⟩

/-- Days-since-1970 of `date.min` (0001-01-01, ordinal 1). -/
def minDateDays : Int := -719162

/-- Days-since-1970 of `date.max` (9999-12-31, ordinal 3652059). -/
def maxDateDays : Int := 2932896

/-- The `date - timedelta(days=k)`: CPython computes the result ordinal
and raises `OverflowError` ("date value out of range") when it leaves
`[date.min.toordinal(), date.max.toordinal()]`. -/
def PyDate.subDays (dt : PyDate) (k : Int) : Except PyErr PyDate :=
  let z := dt.toDays - k
  if minDateDays ≤ z && z ≤ maxDateDays then .ok (PyDate.ofDays z)
  else .error .overflowErr

/-- Python's `date.weekday()`: Monday = 0 … Sunday = 6
(1970-01-01 was a Thursday, weekday 3). -/
def PyDate.weekday (dt : PyDate) : Int :=
  (dt.toDays + 3) % 7

/-- Zero-pad a nonnegative integer to `w` digits. -/
def padNum (w : Nat) (n : Int) : String :=
  let s := toString n.toNat
  let l := s.length
  (String.mk (List.replicate (w - l) '0')) ++ s

/-- The `strftime("%Y-%m-%d")`. -/
def PyDate.format (dt : PyDate) : String :=
  padNum 4 dt.y ++ "-" ++ padNum 2 dt.m ++ "-" ++ padNum 2 dt.d

def digitsToNat (cs : List Char) : Nat :=
  cs.foldl (fun acc c => acc * 10 + (c.toNat - '0'.toNat)) 0

def isAllDigits (s : String) : Bool :=
  !s.data.isEmpty && s.data.all (fun c => c.isDigit)

/-- The `datetime.strptime(s, "%Y-%m-%d")`: three dash-separated digit
groups (`%Y` up to four digits, `%m`/`%d` up to two, zero padding
optional), forming a valid calendar date; anything else raises
`ValueError`. -/
def parsePyDate (s : String) : Option PyDate :=
  match splitOnChar '-' s with
  | [ys, ms, ds] =>
    if isAllDigits ys && ys.length ≤ 4 && isAllDigits ms && ms.length ≤ 2 &&
       isAllDigits ds && ds.length ≤ 2 then
      let dt : PyDate := ⟨digitsToNat ys.toList, digitsToNat ms.toList, digitsToNat ds.toList⟩
      if dt.valid then some dt else none
    else none
  | _ => none

/-- The `current_date` strings accepted by `strptime("%Y-%m-%d")`. -/
def validDateStr (s : String) : Bool :=
  (parsePyDate s).isSome

/-- A well-formed current date on which every `date - timedelta`
subtraction the date resolver can attempt stays inside `datetime`'s
range (the subtrahends the resolver uses are 30, 14, 7, 1 and
`weekday() ∈ [0, 6]` days).  `datetime.now()` always satisfies this. -/
def dateArithSafe (cd : String) : Bool :=
  match parsePyDate cd with
  | none => false
  | some t =>
    (t.subDays 30).isOk && (t.subDays 14).isOk && (t.subDays 7).isOk &&
    (t.subDays 1).isOk && (t.subDays t.weekday).isOk

/-! ## JSON values

The value shapes `json.loads` can produce (floats are not needed by any
embedded code path and are folded into `num`).  A successfully extracted
top-level plan object is a key/value list (`JObj`). -/

inductive Jval where
  | null
  | bool (b : Bool)
  | num (n : Int)
  | str (s : String)
  | arr (l : List Jval)
  | obj (l : List (String × Jval))

abbrev JObj := List (String × Jval)

/-- Python truthiness of a JSON-shaped value. -/
def Jval.truthy : Jval → Bool
  | .null => false
  | .bool b => b
  | .num n => n ≠ 0
  | .str s => s ≠ ""
  | .arr l => !l.isEmpty
  | .obj l => !l.isEmpty

/-- The `d.get(key, default)` on a parsed JSON object. -/
def jGet (d : JObj) (key : String) (dflt : Jval) : Jval :=
  match d.find? (fun p => p.1 = key) with
  | some p => p.2
  | none => dflt

/-- The `d.get(key)` (default `None`). -/
def jGetOpt (d : JObj) (key : String) : Jval :=
  jGet d key .null

/-- Whether `"<"` occurs in `str(v)`: `str` of a string is the string
itself, and `str` of a container interpolates the `repr` of every nested
string and key around punctuation that contains no `<`. -/
def Jval.containsLt : Jval → Bool
  | .null => false
  | .bool _ => false
  | .num _ => false
  | .str s => strContains s "<"
  | .arr l => l.attach.any (fun c => c.1.containsLt)
  | .obj l => l.attach.any (fun c => strContains c.1.1 "<" || c.1.2.containsLt)
  decreasing_by
  · cases c with | mk v hv =>
      have := List.sizeOf_lt_of_mem hv
      simp only [Jval.arr.sizeOf_spec]
      omega
  · cases c with | mk p hp =>
      cases p with | mk k v =>
        have h1 : sizeOf (k, v) < sizeOf l := List.sizeOf_lt_of_mem hp
        have h2 : sizeOf (k, v) = 1 + sizeOf k + sizeOf v := by simp
        simp only [Jval.obj.sizeOf_spec]
        omega

/-! ## Regex search for the compound-trigger patterns

`QueryAgent.COMPOUND_INDICATORS` are searched with `re.search` over the
lowercased query.  A pattern here denotes the set of remainders left
after matching a prefix of the input; `re.search` succeeds iff some
start position leaves a nonempty remainder set. -/

/-- A regex fragment: input suffix ↦ suffixes remaining after a match. -/
def Rx := List Char → List (List Char)

/-- A literal string. -/
def rxLit (s : String) : Rx := fun cs =>
  if s.toList.isPrefixOf cs then [cs.drop s.length] else []

/-- Sequencing. -/
def rxSeq (a b : Rx) : Rx := fun cs => (a cs).flatMap b

def rxSeq3 (a b c : Rx) : Rx := rxSeq a (rxSeq b c)

def rxSeq4 (a b c d : Rx) : Rx := rxSeq a (rxSeq3 b c d)

def rxSeq5 (a b c d e : Rx) : Rx := rxSeq a (rxSeq4 b c d e)

/-- Alternation `(x|y|…)`. -/
def rxAlt (l : List Rx) : Rx := fun cs => l.flatMap (fun r => r cs)

/-- The `X?` for a literal `X`. -/
def rxOptLit (s : String) : Rx := fun cs => cs :: rxLit s cs

/-- The `\s+`. -/
def rxWs1 : Rx := fun cs =>
  let rec go : List Char → List (List Char)
    | [] => []
    | c :: rest => if isPySpace c then rest :: go rest else []
  go cs

/-- The `.*` without `re.DOTALL`: skip any run of characters not containing
a newline. -/
def rxDotStar : Rx := fun cs =>
  let rec go : List Char → List (List Char)
    | [] => [[]]
    | c :: rest => (c :: rest) :: (if c = '\n' then [] else go rest)
  go cs

/-- The `re.search(pattern, text)` as a Boolean. -/
def rxSearch (r : Rx) (text : String) : Bool :=
  (allTails text.toList).any (fun t => !(r t).isEmpty)

/-! ## `src/agents/query_agent.py` — data model -/

/-- The `QueryPlan` dataclass, with its field defaults. -/
structure QueryPlan where
  query_type : String := "broad_search"
  case_number : Option Int := none
  semantic_query : Option String := none
  result_count : Int := 10
  detail_level : String := "summary"
  date_start : Option String := none
  date_end : Option String := none
  themes : Option (List String) := none
  brands : Option (List String) := none
  aggregation_type : Option String := none
  deriving DecidableEq, Repr

/-- The `SearchStep` dataclass.  Note: it has *no* `group_by`, `filters`
or `top_n` field (`query_agent.py` lines 48–82). -/
structure SearchStep where
  step_type : String
  purpose : String
  semantic_query : Option String := none
  result_count : Int := 10
  detail_level : String := "summary"
  themes : Option (List String) := none
  brands : Option (List String) := none
  date_start : Option String := none
  date_end : Option String := none
  case_numbers : Option (List Int) := none
  aggregation_type : Option String := none
  use_prior_results : Bool := false
  deriving DecidableEq, Repr

/-- The `CompoundQueryPlan` dataclass. -/
structure CompoundQueryPlan where
  is_compound : Bool := false
  steps : List SearchStep := []
  synthesis_strategy : String := "hierarchical"
  original_query : String := ""
  deriving DecidableEq, Repr

/-- The `QueryAgent.process` returns `QueryPlan | CompoundQueryPlan`. -/
inductive PlanResult where
  | simple (p : QueryPlan)
  | compound (c : CompoundQueryPlan)
  deriving DecidableEq, Repr

/-- The completion-capability collaborator: for each of the three call
sites, either the raised exception, or — for the two classification
sites — the JSON object recovered from the response text by
`re.search(r'\{.*\}', …)` + `json.loads` (`none` when extraction or
decoding fails), and for the synthesis site the raw response text. -/
structure LlmBehavior where
  compoundCall : Except PyErr (Option JObj)
  classifyCall : Except PyErr (Option JObj)
  synthCall : Except PyErr String

/-! ## JSON-to-dataclass field coercions

`QueryPlan` / `SearchStep` fields are typed per the dataclass
annotations; a JSON value of a different shape is mapped to the value
that makes the embedded consumers behave as CPython does (every
downstream use is an `==` against a string literal, a truthiness test,
or arithmetic that the builder has already type-checked). -/

/-- Field read for a string-annotated slot: absent key → default;
string → itself; any other JSON shape → `""`, which (like the raw
Python value) is unequal to every literal the code compares against. -/
def jFieldStr (d : JObj) (key dflt : String) : String :=
  match d.find? (fun p => p.1 = key) with
  | none => dflt
  | some (_, .str s) => s
  | some _ => ""

/-- The `Optional[str]` slot: non-strings behave as `None` downstream. -/
def jToOptStr : Jval → Option String
  | .str s => some s
  | _ => none

/-- The `Optional[int]` slot (only truthiness and store lookups consume it). -/
def jToOptInt : Jval → Option Int
  | .num n => some n
  | .bool b => some (if b then 1 else 0)
  | _ => none

/-- The `Optional[List[str]]` slot. -/
def jToStrList : Jval → Option (List String)
  | .arr l => some (l.map (fun v => match v with | .str s => s | _ => ""))
  | _ => none

/-- The `Optional[List[int]]` slot. -/
def jToIntList : Jval → Option (List Int)
  | .arr l => some (l.map (fun v => match v with | .num n => n | _ => 0))
  | _ => none

/-- The `min(v, 50)` where `v` came from JSON: Python's `min` raises
`TypeError` unless the value is a number (`bool` counts as an int). -/
def jMin50 : Jval → Except PyErr Int
  | .num n => .ok (min n 50)
  | .bool b => .ok (min (if b then (1 : Int) else 0) 50)
  | _ => .error .typeErr

/-! ## `QueryAgent` — deterministic classification helpers -/

/-- Case-insensitive literal consumption (for `re.IGNORECASE`). -/
def dropLowLit : List Char → List Char → Option (List Char)
  | [], cs => some cs
  | _, [] => none
  | p :: ps, c :: cs => if c.toLower = p then dropLowLit ps cs else none

/-- Greedy `(\d+)` capture: the leading digit run, which must be
nonempty. -/
def leadDigits (cs : List Char) : Option Int :=
  let ds := cs.takeWhile (fun c => c.isDigit)
  if ds.isEmpty then none else some (digitsToNat ds)

/-- The `case\s*#?\s*(\d+)` anchored at a position. -/
def matchCasePat1 (cs : List Char) : Option Int := do
  let r ← dropLowLit "case".toList cs
  let r := r.dropWhile isPySpace
  let r := match r with | '#' :: rest => rest | _ => r
  leadDigits (r.dropWhile isPySpace)

/-- The `#(\d+)` anchored at a position. -/
def matchCasePat2 (cs : List Char) : Option Int :=
  match cs with
  | '#' :: rest => leadDigits rest
  | _ => none

/-- Whitespace run of length ≥ 1 followed by the rest (`\s+`, greedy;
the following token is never whitespace, so no backtracking arises). -/
def dropWs1 (cs : List Char) : Option (List Char) :=
  match cs with
  | c :: rest => if isPySpace c then some (rest.dropWhile isPySpace) else none
  | [] => none

/-- The `case\s+number\s+(\d+)` anchored at a position. -/
def matchCasePat3 (cs : List Char) : Option Int := do
  let r ← dropLowLit "case".toList cs
  let r ← dropWs1 r
  let r ← dropLowLit "number".toList r
  let r ← dropWs1 r
  leadDigits r

/-- The `case\s+(\d{4,})` anchored at a position. -/
def matchCasePat4 (cs : List Char) : Option Int := do
  let r ← dropLowLit "case".toList cs
  let r ← dropWs1 r
  let ds := r.takeWhile (fun c => c.isDigit)
  if ds.length ≥ 4 then some (digitsToNat ds) else none

/-- The `re.search` of one anchored matcher: leftmost start position wins. -/
def scanPat (f : List Char → Option Int) (q : String) : Option Int :=
  (allTails q.toList).findSome? f

/-- The `QueryAgent._extract_case_number`: the `CASE_NUMBER_PATTERNS` list
tried in order, first pattern with a match wins (`int(…)` of a digit
group never raises). -/
def extractCaseNumber (q : String) : Option Int :=
  (scanPat matchCasePat1 q).orElse fun _ =>
  (scanPat matchCasePat2 q).orElse fun _ =>
  (scanPat matchCasePat3 q).orElse fun _ =>
  scanPat matchCasePat4 q

/-- The `QueryAgent.AGGREGATION_KEYWORDS`. -/
def aggregationKeywords : List String :=
  ["how many", "count", "total", "distribution", "breakdown",
   "most common", "popular", "frequent", "statistics", "stats",
   "trend", "trends", "percentage", "percent"]

/-- The `QueryAgent._is_aggregation_query`. -/
def isAggregationQuery (q : String) : Bool :=
  aggregationKeywords.any (fun kw => strContains (strLower q) kw)

/-- The `QueryAgent._extract_date_range`: parse `current_date` (raising
`ValueError` on malformed input, exactly like `strptime`), then walk the
fixed phrase table in source order; the result is `(start, end)` as ISO
strings, or `(None, None)` when no phrase occurs.  A matched phrase's
`timedelta` subtraction raises `OverflowError` when it falls below
`date.min` — nothing in `query_agent.py` catches it. -/
def extractDateRange (q currentDate : String) :
    Except PyErr (Option String × Option String) :=
  match parsePyDate currentDate with
  | none => .error .valueErr
  | some today =>
    let ql := strLower q
    if strContains ql "last 30 days" || strContains ql "past 30 days" ||
       strContains ql "past month" then
      match today.subDays 30 with
      | .error e => .error e
      | .ok d => .ok (some d.format, some currentDate)
    else if strContains ql "last week" || strContains ql "past week" then
      match today.subDays 7 with
      | .error e => .error e
      | .ok d => .ok (some d.format, some currentDate)
    else if strContains ql "last 7 days" || strContains ql "past 7 days" then
      match today.subDays 7 with
      | .error e => .error e
      | .ok d => .ok (some d.format, some currentDate)
    else if strContains ql "this week" then
      match today.subDays today.weekday with
      | .error e => .error e
      | .ok d => .ok (some d.format, some currentDate)
    else if strContains ql "this month" then
      .ok (some (PyDate.format { today with d := 1 }), some currentDate)
    else if strContains ql "today" then
      .ok (some currentDate, some currentDate)
    else if strContains ql "yesterday" then
      match today.subDays 1 with
      | .error e => .error e
      | .ok d => .ok (some d.format, some d.format)
    else if strContains ql "recent" then
      match today.subDays 14 with
      | .error e => .error e
      | .ok d => .ok (some d.format, some currentDate)
    else
      .ok (none, none)

/-- The `QueryAgent._detect_themes`: case-insensitive containment, or
containment of the underscore-to-space form (which the source does *not*
lowercase). -/
def detectThemes (q : String) (avail : List String) : List String :=
  let ql := strLower q
  avail.filter (fun th =>
    strContains ql (strLower th) || strContains ql (strReplaceChar th '_' ' '))

/-- The `QueryAgent._detect_brands`. -/
def detectBrands (q : String) (avail : List String) : List String :=
  avail.filter (fun b => strContains (strLower q) (strLower b))

/-- The `QueryAgent.COMPOUND_INDICATORS`, pattern by pattern in source
order. -/
def compoundIndicators : List Rx :=
  [ rxSeq4 (rxLit "and") rxWs1
      (rxAlt [rxLit "show", rxLit "give", rxLit "provide", rxLit "include", rxLit "list"])
      (rxSeq3 rxDotStar (rxLit "example") (rxOptLit "s")),
    rxSeq5 (rxLit "with") rxWs1 (rxLit "specific") rxWs1
      (rxSeq (rxLit "case") (rxOptLit "s")),
    rxSeq3 (rxLit "compare") rxDotStar
      (rxAlt [rxLit "and", rxSeq (rxLit "vs") (rxOptLit "."), rxLit "versus"]),
    rxSeq3 (rxLit "highlight") rxDotStar
      (rxAlt [rxLit "specific", rxLit "challenging", rxLit "interesting", rxLit "notable"]),
    rxSeq3 (rxLit "deep") rxWs1 (rxLit "dive"),
    rxSeq3 (rxLit "drill") rxWs1 (rxLit "down"),
    rxSeq5 (rxSeq (rxLit "change") (rxOptLit "d")) rxWs1 (rxLit "over") rxWs1 (rxLit "time"),
    rxSeq3 (rxLit "trend") rxDotStar (rxSeq (rxLit "example") (rxOptLit "s")),
    rxSeq3 (rxLit "breakdown") rxDotStar (rxSeq (rxLit "detail") (rxOptLit "s")),
    rxSeq5 (rxLit "overview") rxDotStar (rxLit "and") rxDotStar (rxLit "specific"),
    rxSeq5 (rxSeq3 (rxLit "main") rxWs1
        (rxAlt [rxSeq (rxLit "theme") (rxOptLit "s"), rxSeq (rxLit "topic") (rxOptLit "s")]))
      rxDotStar (rxLit "and") rxDotStar
      (rxAlt [rxSeq (rxLit "example") (rxOptLit "s"), rxSeq (rxLit "detail") (rxOptLit "s")]),
    rxSeq5 (rxLit "analyze") rxDotStar (rxLit "and") rxDotStar
      (rxAlt [rxLit "show", rxLit "highlight"]),
    rxSeq5 (rxAlt [rxLit "statistics", rxLit "stats"]) rxDotStar (rxLit "and") rxDotStar
      (rxAlt [rxSeq (rxLit "example") (rxOptLit "s"), rxSeq (rxLit "case") (rxOptLit "s")]),
    rxSeq5 (rxLit "both") rxDotStar (rxAlt [rxLit "overview", rxLit "summary"])
      (rxSeq rxDotStar (rxLit "and")) (rxSeq rxDotStar (rxAlt [rxLit "detail", rxLit "specific"])) ]

/-- The `QueryAgent._needs_compound_strategy`. -/
def needsCompoundStrategy (q : String) : Bool :=
  compoundIndicators.any (fun r => rxSearch r (strLower q))

/-! ## `QueryAgent` — plan construction -/

/-- The date pair for one step dict (`_create_compound_plan` lines
581–584): a relative-date placeholder (a truthy `date_start` whose
`str` contains `"<"`) is replaced through the deterministic resolver,
which may raise `ValueError`. -/
def stepDates (stepDict : JObj) (query currentDate : String) :
    Except PyErr (Option String × Option String) :=
  if (jGetOpt stepDict "date_start").truthy && (jGetOpt stepDict "date_start").containsLt then
    extractDateRange query currentDate
  else
    .ok (jToOptStr (jGetOpt stepDict "date_start"), jToOptStr (jGetOpt stepDict "date_end"))

/-- One `SearchStep(...)` construction inside
`QueryAgent._create_compound_plan` (lines 581–599);
`min(step_dict.get("result_count", 10), 50)` raises `TypeError` for a
non-numeric JSON value. -/
def buildSearchStep (stepDict : JObj) (query currentDate : String) :
    Except PyErr SearchStep :=
  match stepDates stepDict query currentDate with
  | .error e => .error e
  | .ok dates =>
  match jMin50 (jGet stepDict "result_count" (.num 10)) with
  | .error e => .error e
  | .ok resultCount =>
  .ok { step_type := jFieldStr stepDict "step_type" "broad_search",
        purpose := jFieldStr stepDict "purpose" "Search",
        semantic_query := jToOptStr (jGetOpt stepDict "semantic_query"),
        result_count := resultCount,
        detail_level := jFieldStr stepDict "detail_level" "summary",
        themes := jToStrList (jGetOpt stepDict "themes"),
        brands := jToStrList (jGetOpt stepDict "brands"),
        date_start := dates.1,
        date_end := dates.2,
        case_numbers := jToIntList (jGetOpt stepDict "case_numbers"),
        aggregation_type := jToOptStr (jGetOpt stepDict "aggregation_type"),
        use_prior_results := (jGet stepDict "use_prior_results" (.bool false)).truthy }

/-- One iteration of the `for step_dict in plan_dict.get("steps", [])`
loop body: a non-dict element has no `.get` (`AttributeError`). -/
def buildStepOfJval (query currentDate : String) (v : Jval) : Except PyErr SearchStep :=
  match v with
  | .obj d => buildSearchStep d query currentDate
  | _ => .error .attributeErr

def buildStepList (query currentDate : String) : List Jval → Except PyErr (List SearchStep)
  | [] => .ok []
  | v :: rest =>
    match buildStepOfJval query currentDate v with
    | .error e => .error e
    | .ok s =>
      match buildStepList query currentDate rest with
      | .error e => .error e
      | .ok restSteps => .ok (s :: restSteps)

/-- Iterating `plan_dict.get("steps", [])`: a list yields its elements;
iterating a dict or a string yields keys/characters, which have no
`.get` (`AttributeError`) — unless empty, when the loop body never
runs; `None`, numbers and booleans are not iterable (`TypeError`). -/
def buildSteps (stepsVal : Jval) (query currentDate : String) :
    Except PyErr (List SearchStep) :=
  match stepsVal with
  | .arr l => buildStepList query currentDate l
  | .obj l => if l.isEmpty then .ok [] else .error .attributeErr
  | .str s => if s.data.isEmpty then .ok [] else .error .attributeErr
  | _ => .error .typeErr

/-- The `QueryAgent._create_compound_plan`: LLM call (whose raised exception
propagates), JSON extraction (`none` → the non-compound fallback, which
is also where a `json.JSONDecodeError` or `TypeError` lands via the
inner `except`), then plan construction with `steps[:4]`;
`AttributeError` / `ValueError` escape the inner `except` clause. -/
def createCompoundPlan (llmOutcome : Except PyErr (Option JObj))
    (query currentDate : String) : Except PyErr CompoundQueryPlan :=
  match llmOutcome with
  | .error e => .error e
  | .ok none => .ok { is_compound := false, original_query := query }
  | .ok (some planDict) =>
    if !(jGet planDict "is_compound" (.bool false)).truthy then
      .ok { is_compound := false, original_query := query }
    else
      match buildSteps (jGet planDict "steps" (.arr [])) query currentDate with
      | .ok steps =>
          .ok { is_compound := true,
                steps := steps.take 4,
                synthesis_strategy := jFieldStr planDict "synthesis_strategy" "hierarchical",
                original_query := query }
      | .error .typeErr => .ok { is_compound := false, original_query := query }
      | .error e => .error e

/-- The compound stage of `QueryAgent.process` (lines 266–276): guarded
by `enable_compound and self.llm_client and
self._needs_compound_strategy(query)`; any exception is caught and the
classifier falls through (`none`), as it does when the returned plan is
not compound. -/
def tryCompound (llm : Option LlmBehavior) (enableCompound : Bool)
    (query currentDate : String) : Option CompoundQueryPlan :=
  match llm with
  | none => none
  | some b =>
    if enableCompound && needsCompoundStrategy query then
      match createCompoundPlan b.compoundCall query currentDate with
      | .ok cp => if cp.is_compound then some cp else none
      | .error _ => none
    else none

/-- The `QueryPlan(...)` built from a parsed LLM classification object
(`_process_with_llm` lines 470–493), `none` meaning extraction or
decoding failed (the fixed `result_count=15` fallback).  Note
`semantic_query` defaults to the raw query only when the key is absent. -/
def planFromLlm (outcome : Option JObj) (query currentDate : String) :
    Except PyErr QueryPlan :=
  match outcome with
  | none =>
      .ok { query_type := "broad_search", semantic_query := some query,
            result_count := 15, detail_level := "summary" }
  | some d => do
    let rawStart := jGetOpt d "date_start"
    let (dateStart, dateEnd) ←
      if rawStart.truthy && rawStart.containsLt then do
        let (ds, de) ← extractDateRange query currentDate
        .ok (ds, some (pyOrStr de currentDate))
      else
        .ok (jToOptStr rawStart, jToOptStr (jGetOpt d "date_end"))
    .ok { query_type := jFieldStr d "query_type" "broad_search",
          case_number := jToOptInt (jGetOpt d "case_number"),
          semantic_query :=
            match d.find? (fun p => p.1 = "semantic_query") with
            | none => some query
            | some p => jToOptStr p.2,
          result_count :=
            match jGet d "result_count" (.num 10) with
            | .num n => n
            | .bool b => if b then 1 else 0
            | _ => 10,
          detail_level := jFieldStr d "detail_level" "summary",
          date_start := dateStart,
          date_end := dateEnd,
          themes := jToStrList (jGetOpt d "themes"),
          brands := jToStrList (jGetOpt d "brands"),
          aggregation_type := jToOptStr (jGetOpt d "aggregation_type") }

/-- The `QueryAgent._process_with_llm`: the client call happens outside the
parse `try`, so its exception propagates (to be caught by
`process`). -/
def processWithLlm (b : LlmBehavior) (query currentDate : String) :
    Except PyErr QueryPlan :=
  match b.classifyCall with
  | .error e => .error e
  | .ok outcome => planFromLlm outcome query currentDate

/-- The `QueryAgent._create_aggregation_plan`. -/
def createAggregationPlan (query currentDate : String) : Except PyErr QueryPlan :=
  match extractDateRange query currentDate with
  | .error e => .error e
  | .ok dates =>
    .ok { query_type := "aggregation", semantic_query := some query,
          result_count := 50, detail_level := "metadata_only",
          date_start := dates.1, date_end := dates.2,
          aggregation_type := some
            (if strContains (strLower query) "brand" then "count_by_brand"
             else if strContains (strLower query) "sentiment" then "sentiment_distribution"
             else "count_by_theme") }

/-- The rule-based tail of `QueryAgent.process` (lines 310–331). -/
def ruleBasedPlan (query : String) (dateStart dateEnd : Option String)
    (detectedThemes detectedBrands : List String) : QueryPlan :=
  if !detectedThemes.isEmpty || !detectedBrands.isEmpty || truthyStr dateStart then
    { query_type := "filtered_search", semantic_query := some query,
      result_count := 10, detail_level := "full_conversation",
      date_start := dateStart, date_end := dateEnd,
      themes := if detectedThemes.isEmpty then none else some detectedThemes,
      brands := if detectedBrands.isEmpty then none else some detectedBrands }
  else
    { query_type := "broad_search", semantic_query := some query,
      result_count := 100, detail_level := "summary",
      date_start := dateStart, date_end := dateEnd }

/-- The `QueryAgent.process`.  `current_date` is a parameter (the Python
`None` default substitutes `datetime.now()`, which every caller in the
repository pre-empts by passing a formatted date).  A `ValueError` from
`strptime` on a malformed `current_date` propagates to the caller; LLM
exceptions never do. -/
def queryAgentProcess (llm : Option LlmBehavior) (query : String)
    (availableThemes availableBrands : List String)
    (currentDate : String) (enableCompound : Bool) :
    Except PyErr PlanResult :=
  match tryCompound llm enableCompound query currentDate with
  | some cp => .ok (.compound cp)
  | none =>
    if truthyInt (extractCaseNumber query) then
      .ok (.simple { query_type := "specific_case",
                     case_number := extractCaseNumber query,
                     semantic_query := none, result_count := 1,
                     detail_level := "full_conversation" })
    else if isAggregationQuery query then
      match createAggregationPlan query currentDate with
      | .error e => .error e
      | .ok p => .ok (.simple p)
    else
      match extractDateRange query currentDate with
      | .error e => .error e
      | .ok dates =>
        let detectedThemes := detectThemes query availableThemes
        let detectedBrands := detectBrands query availableBrands
        match llm with
        | some b =>
          match processWithLlm b query currentDate with
          | .ok p => .ok (.simple p)
          | .error _ =>
              .ok (.simple (ruleBasedPlan query dates.1 dates.2 detectedThemes detectedBrands))
        | none =>
            .ok (.simple (ruleBasedPlan query dates.1 dates.2 detectedThemes detectedBrands))

/-! ## Cases and the store

A retrieved case is a dict `{"summary": …, "metadata": {…}}`; every
read is a `.get` with a default, so each key is an `Option` field
(`none` = key absent; an absent `"metadata"` dict behaves like one with
every key absent).  The compound executor tags cases in place with
`_detail_level` / `_step_purpose` / `_category` keys. -/

structure CaseMeta where
  case_number : Option Int := none
  created_at : Option String := none
  brand : Option String := none
  theme : Option String := none
  channel : Option String := none
  outcome : Option String := none
  sentiment : Option String := none
  subject : Option String := none
  description : Option String := none
  full_conversation : Option String := none
  deriving DecidableEq, Repr

structure Case where
  summary : Option String := none
  metadata : CaseMeta := {}
  tagDetail : Option String := none
  tagPurpose : Option String := none
  tagCategory : Option String := none
  deriving DecidableEq, Repr

/-- The keyword arguments of `vector_store.search`. -/
structure SearchArgs where
  query : String
  n_results : Int
  start_date : Option String := none
  end_date : Option String := none
  theme : Option String := none
  brands : Option (List String) := none
  deriving DecidableEq, Repr

/-- The `VectorStore` collaborator, as the record of the read
operations the agents invoke (each call is total; "not found" is an
empty result). -/
structure VectorStore where
  search : SearchArgs → List Case
  get_by_case_number : Int → Option Case
  get_all_themes : List String
  get_all_brands : List String
  get_case_count : Int
  count_by_theme : List (String × Int)
  count_by_brand : List (String × Int)
  count_by_case_type : List (String × Int)
  count_by_case_topic : List (String × Int)
  count_by_field : String → List (String × Int)

/-- The aggregation dict built by `Orchestrator._execute_aggregation` /
`_execute_aggregation_step`: a `total_cases` entry followed by the
distribution entries, in insertion order. -/
structure AggData where
  total_cases : Int := 0
  distributions : List (String × List (String × Int)) := []
  deriving DecidableEq, Repr

/-! ## `src/agents/response_agent.py` -/

/-- One source citation dict, as built by
`ResponseAgent._format_sources`. -/
structure SourceRec where
  id : String
  case_number : Option Int
  summary : String
  brand : String
  theme : String
  channel : String
  date : String
  outcome : String
  deriving DecidableEq, Repr

/-- The `ResponseResult` dataclass. -/
structure ResponseResult where
  response : String
  cases_found : Nat
  query_type : String
  sources : List SourceRec
  deriving DecidableEq, Repr

/-- The `str(…)` of `metadata.get('case_number', 'Unknown')` inside an
f-string. -/
def caseNumStr : Option Int → String
  | some n => toString n
  | none => "Unknown"

/-- One citation record (`_format_sources` loop body). -/
def formatSource (c : Case) : SourceRec :=
  { id := "#" ++ caseNumStr c.metadata.case_number,
    case_number := c.metadata.case_number,
    summary := strTake (c.summary.getD "") 200,
    brand := c.metadata.brand.getD "",
    theme := c.metadata.theme.getD "",
    channel := c.metadata.channel.getD "",
    date := if truthyStr c.metadata.created_at then strTake (c.metadata.created_at.getD "") 10 else "",
    outcome := c.metadata.outcome.getD "" }

/-- The `ResponseAgent._format_sources`. -/
def formatSources (cases : List Case) : List SourceRec :=
  cases.map formatSource

/-- The `metadata.get('created_at', X)[:10] if metadata.get('created_at')
else Y` — the date rendering idiom of the context builders. -/
def dateStrOr (createdAt : Option String) (dflt : String) : String :=
  if truthyStr createdAt then strTake (createdAt.getD "") 10 else dflt

/-- The `ResponseAgent._build_detailed_context`. -/
def buildDetailedContext (cases : List Case) : String :=
  if cases.isEmpty then "No matching case found."
  else
    String.intercalate "\n" (cases.map fun c =>
      let m := c.metadata
      "\n=== Case #" ++ caseNumStr m.case_number ++ " ===\n" ++
      "Date: " ++ dateStrOr m.created_at "Unknown" ++ "\n" ++
      "Brand: " ++ m.brand.getD "Unknown" ++ "\n" ++
      "Channel: " ++ m.channel.getD "Unknown" ++ "\n" ++
      "Theme: " ++ m.theme.getD "Unknown" ++ "\n" ++
      "Outcome: " ++ m.outcome.getD "Unknown" ++ "\n" ++
      "Subject: " ++ m.subject.getD "N/A" ++ "\n\n" ++
      "Summary: " ++ c.summary.getD "No summary available" ++ "\n\n" ++
      "Full Conversation:\n" ++ m.full_conversation.getD "No conversation available" ++ "\n\n" ++
      "Description: " ++ m.description.getD "N/A" ++ "\n")

/-- The `ResponseAgent._build_summary_context`. -/
def buildSummaryContext (cases : List Case) : String :=
  if cases.isEmpty then "No matching cases found."
  else
    let entries := cases.enum.map fun (i, c) =>
      let m := c.metadata
      let conv0 := m.full_conversation.getD ""
      let conv := if conv0.length > 2000 then strTake conv0 1997 ++ "..." else conv0
      let descr := m.description.getD ""
      let summ := c.summary.getD "No summary"
      let base :=
        "\n" ++ toString (i + 1) ++ ". Case #" ++ caseNumStr m.case_number ++
        " (" ++ dateStrOr m.created_at "N/A" ++ ")\n" ++
        "   Brand: " ++ m.brand.getD "Unknown" ++ " | Theme: " ++ m.theme.getD "Unknown" ++
        " | Channel: " ++ m.channel.getD "Unknown" ++ "\n" ++
        "   Outcome: " ++ m.outcome.getD "Unknown" ++ " | Sentiment: " ++ m.sentiment.getD "Unknown"
      let base := if truthyStr m.subject then base ++ "\n   Subject: " ++ m.subject.getD "" else base
      let base := base ++ "\n   Summary: " ++ summ
      let base :=
        if descr ≠ "" && descr ≠ summ then
          base ++ "\n   Description: " ++ (if descr.length > 500 then strTake descr 500 ++ "..." else descr)
        else base
      if conv ≠ "" then base ++ "\n   Conversation Excerpt:\n   " ++ conv else base
    String.intercalate "\n" (("Found " ++ toString cases.length ++ " relevant cases:\n") :: entries)

/-- The `sorted(value.items(), key=lambda x: -x[1])`: stable descending
order by count. -/
def insertCountDesc (x : String × Int) : List (String × Int) → List (String × Int)
  | [] => [x]
  | y :: ys => if y.2 ≥ x.2 then y :: insertCountDesc x ys else x :: y :: ys

def sortCountDesc (l : List (String × Int)) : List (String × Int) :=
  l.foldl (fun acc x => insertCountDesc x acc) []

/-- The `{percentage:.1f}` — one decimal place; float rounding approximated
by rational truncation (the rendered text feeds only the LLM prompt). -/
def pct1 (v total : Int) : String :=
  if total > 0 then
    let tenths := v * 1000 / total
    toString (tenths / 10) ++ "." ++ toString (tenths % 10)
  else "0.0"

/-- The `key.replace('_', ' ').title()` for the distribution headings
(`.title()` capitalizes the first letter of each space-separated word). -/
def titleCase (s : String) : String :=
  String.intercalate " " ((splitOnChar ' ' (strReplaceChar s '_' ' ')).map fun w =>
    match w.data with
    | [] => ""
    | c :: rest => String.mk (c.toUpper :: rest.map Char.toLower))

/-- The `ResponseAgent._build_aggregation_context`. -/
def buildAggregationContext (agg : Option AggData) (sampleCases : List Case) : String :=
  let parts := ["=== Statistical Summary ===\n"]
  let parts :=
    match agg with
    | none => parts
    | some a =>
      let total := a.total_cases
      let distLines := a.distributions.flatMap fun (key, value) =>
        ("\n" ++ titleCase key ++ ":") ::
        ((sortCountDesc value).take 10).map fun (k, v) =>
          "  - " ++ k ++ ": " ++ toString v ++ " (" ++ pct1 (v * 100) total ++ "%)"
      parts ++ ["Total cases analyzed: " ++ toString total ++ "\n"] ++ distLines
  let parts :=
    if sampleCases.isEmpty then parts
    else
      parts ++
      [("\n\n=== Sample Cases (" ++ toString sampleCases.length ++ " shown) ===")] ++
      ((sampleCases.take 5).enum.map fun (i, c) =>
        "\n" ++ toString (i + 1) ++ ". #" ++ caseNumStr c.metadata.case_number ++ ": " ++
        strTake (c.summary.getD "") 150 ++ "...")
  String.intercalate "\n" parts

/-- The `ResponseAgent._call_llm`: the response text, or — when the client
raises — the diagnostic fallback (which interpolates
`len(user_message)`). -/
def callLlm (b : LlmBehavior) (userMessage : String) : String :=
  match b.synthCall with
  | .ok text => text
  | .error _ =>
    "I encountered an error generating a response. Based on the " ++
    toString userMessage.length ++ " cases found, please review the source data for details."

/-- The `ResponseAgent._generate_fallback_response`. -/
def generateFallbackResponse (cases : List Case) (queryType : String)
    (agg : Option AggData) : String :=
  if cases.isEmpty && agg.isNone then "No matching data found for your query."
  else if queryType = "specific_case" && !cases.isEmpty then
    match cases with
    | [] => ""
    | c :: _ =>
      let m := c.metadata
      "Case #" ++ caseNumStr m.case_number ++ ":\n" ++
      "- Theme: " ++ m.theme.getD "Unknown" ++ "\n" ++
      "- Brand: " ++ m.brand.getD "Unknown" ++ "\n" ++
      "- Outcome: " ++ m.outcome.getD "Unknown" ++ "\n" ++
      "- Summary: " ++ c.summary.getD "No summary available"
  else if queryType = "aggregation" && agg.isSome then
    let a := agg.getD {}
    let parts :=
      ("Found " ++ toString a.total_cases ++ " total cases.") ::
      a.distributions.flatMap fun (key, value) =>
        ("\nTop " ++ strReplaceChar key '_' ' ' ++ ":") ::
        ((sortCountDesc value).take 5).map fun (k, v) => "  - " ++ k ++ ": " ++ toString v
    String.intercalate "\n" parts
  else
    "Found " ++ toString cases.length ++ " cases matching your query. Please review the sources for details."

/-- The `ResponseAgent.process`. -/
def responseProcess (llm : Option LlmBehavior) (queryPlan : QueryPlan)
    (cases : List Case) (originalQuery : String)
    (aggregationData : Option AggData := none) : ResponseResult :=
  let queryType := queryPlan.query_type
  let context :=
    if queryType = "specific_case" then buildDetailedContext cases
    else if queryType = "aggregation" then buildAggregationContext aggregationData cases
    else if queryType = "filtered_search" then buildDetailedContext cases
    else buildSummaryContext cases
  let userMessage :=
    "Question: " ++ originalQuery ++ "\n\n" ++ context ++
    "\n\nPlease provide a helpful, specific answer based on the data above. If the data doesn't contain enough information to fully answer the question, acknowledge this limitation."
  let responseText :=
    match llm with
    | some b => callLlm b userMessage
    | none => generateFallbackResponse cases queryType aggregationData
  { response := responseText,
    cases_found := cases.length,
    query_type := queryType,
    sources := formatSources cases }

/-- The `ResponseAgent._format_aggregation_data` (the `total` /
`group_by` / `filters_applied` keys exist only in the
`database_query` payload, which is never constructed — see
`executeDatabaseQuery` — so `total` falls through to `total_cases`). -/
def formatAggregationData (a : AggData) : String :=
  let total := a.total_cases
  let parts := ["Total cases: " ++ toString total]
  let parts := parts ++ a.distributions.flatMap fun (key, value) =>
    ("\n" ++ titleCase key ++ ":") ::
    ((sortCountDesc value).take 10).map fun (k, v) =>
      if total > 0 then
        "  - " ++ k ++ ": " ++ toString v ++ " (" ++ pct1 (v * 100) total ++ "%)"
      else "  - " ++ k ++ ": " ++ toString v
  String.intercalate "\n" parts

/-- The `ResponseAgent._build_compound_summary_context`. -/
def buildCompoundSummaryContext (cases : List Case) : String :=
  String.intercalate "\n" (cases.enum.map fun (i, c) =>
    let m := c.metadata
    let summ0 := c.summary.getD "No summary"
    let summ := if summ0.length > 300 then strTake summ0 297 ++ "..." else summ0
    "\n" ++ toString (i + 1) ++ ". Case #" ++ caseNumStr m.case_number ++
    " (" ++ dateStrOr m.created_at "N/A" ++ ") [From: " ++ (c.tagPurpose.getD "General") ++ "]\n" ++
    "   Brand: " ++ m.brand.getD "Unknown" ++ " | Theme: " ++ m.theme.getD "Unknown" ++
    " | Channel: " ++ m.channel.getD "Unknown" ++ "\n" ++
    "   Summary: " ++ summ ++ "\n")

/-- The `ResponseAgent._build_compound_detailed_context`. -/
def buildCompoundDetailedContext (cases : List Case) : String :=
  String.intercalate "\n" (cases.map fun c =>
    let m := c.metadata
    "\n=== Case #" ++ caseNumStr m.case_number ++ " ===\n" ++
    "[Purpose: " ++ (c.tagPurpose.getD "Detailed Analysis") ++ "]\n" ++
    "Date: " ++ dateStrOr m.created_at "Unknown" ++ "\n" ++
    "Brand: " ++ m.brand.getD "Unknown" ++ "\n" ++
    "Channel: " ++ m.channel.getD "Unknown" ++ "\n" ++
    "Theme: " ++ m.theme.getD "Unknown" ++ "\n" ++
    "Outcome: " ++ m.outcome.getD "Unknown" ++ "\n" ++
    "Subject: " ++ m.subject.getD "N/A" ++ "\n\n" ++
    "Summary: " ++ c.summary.getD "No summary available" ++ "\n\n" ++
    "Full Conversation:\n" ++ m.full_conversation.getD "No conversation available" ++ "\n\n" ++
    "Description: " ++ m.description.getD "N/A" ++ "\n")

/-- The `ResponseAgent._generate_compound_fallback`. -/
def generateCompoundFallback (cases : List Case)
    (aggregations : List (String × AggData)) : String :=
  let parts : List String := []
  let parts :=
    if aggregations.isEmpty then parts
    else
      parts ++ ["**Statistical Overview:**"] ++
      aggregations.flatMap fun (purpose, data) =>
        ["\n" ++ purpose ++ ":", "- Total cases: " ++ toString data.total_cases] ++
        data.distributions.flatMap fun (_, value) =>
          ((sortCountDesc value).take 5).map fun (k, v) => "  - " ++ k ++ ": " ++ toString v
  let parts :=
    if cases.isEmpty then parts
    else
      parts ++ ["\n**Cases Found (" ++ toString cases.length ++ " total):**"] ++
      ((cases.take 10).enum.flatMap fun (i, c) =>
        let m := c.metadata
        let summ := strTake (c.summary.getD "") 150
        ["\n" ++ toString (i + 1) ++ ". Case #" ++ caseNumStr m.case_number,
         "   Theme: " ++ m.theme.getD "Unknown"] ++
        (if summ ≠ "" then ["   " ++ summ ++ "..."] else []))
  if parts.isEmpty then "No data found for your compound query."
  else String.intercalate "\n" parts

/-- The `ResponseAgent.process_compound` (its `step_results` argument is
never read by the function body and is omitted here). -/
def responseProcessCompound (llm : Option LlmBehavior) (plan : CompoundQueryPlan)
    (cases : List Case) (aggregations : List (String × AggData))
    (originalQuery : String) : ResponseResult :=
  let contextParts : List String :=
    if aggregations.isEmpty then []
    else
      "=== STATISTICAL DATA ===" ::
      aggregations.flatMap fun (purpose, data) =>
        ["\n**" ++ purpose ++ ":**", formatAggregationData data]
  let summaryCases := cases.filter (fun c => c.tagDetail = some "summary")
  let detailedCases := cases.filter (fun c => c.tagDetail = some "full_conversation")
  let contextParts :=
    if summaryCases.isEmpty then contextParts
    else contextParts ++
      ["\n=== CASE SUMMARIES (" ++ toString summaryCases.length ++ " cases) ===",
       buildCompoundSummaryContext summaryCases]
  let contextParts :=
    if detailedCases.isEmpty then contextParts
    else contextParts ++
      ["\n=== DETAILED TRANSCRIPTS (" ++ toString detailedCases.length ++ " cases) ===",
       buildCompoundDetailedContext detailedCases]
  let context := String.intercalate "\n" contextParts
  let userMessage :=
    "Question: " ++ originalQuery ++ "\n\n" ++ context ++
    "\n\nPlease provide a comprehensive answer that synthesizes the statistical data (if available) with the specific case examples. Structure your response according to the format guidelines."
  let responseText :=
    match llm with
    | some b => callLlm b userMessage
    | none => generateCompoundFallback cases aggregations
  { response := responseText,
    cases_found := cases.length,
    query_type := "compound",
    sources := formatSources cases }

/-! ## `src/config.py` — the `Config` class

The environment-dependent attribute values the orchestrator reads are
carried in a record; attribute *existence* is fixed by the class body. -/

structure Config where
  use_mock_data : Bool := true
  use_multi_agent : Bool := true
  max_context_cases_broad : Int := 50
  max_context_cases_specific : Int := 10

/-- Every attribute defined on the `Config` class in `src/config.py`
(class variables lines 19–63 plus the four classmethods); any other
name raises `AttributeError`.  Note there is no
`ENABLE_COMPOUND_SEARCH`. -/
def configAttrNames : List String :=
  ["SPRINKLR_API_KEY", "SPRINKLR_API_SECRET", "SPRINKLR_ENVIRONMENT",
   "SPRINKLR_ACCESS_TOKEN", "SPRINKLR_REFRESH_TOKEN", "ANTHROPIC_API_KEY",
   "LLM_PROVIDER", "OPENAI_API_KEY", "OPENAI_MODEL", "USE_MOCK_DATA",
   "CHROMA_DB_PATH", "SPRINKLR_BASE_URLS", "RATE_LIMIT_CALLS_PER_HOUR",
   "RATE_LIMIT_CALLS_PER_SECOND", "EMBEDDING_MODEL", "COLLECTION_NAME",
   "CLAUDE_MODEL", "MAX_CONTEXT_CASES", "USE_MULTI_AGENT",
   "MAX_CONTEXT_CASES_BROAD", "MAX_CONTEXT_CASES_SPECIFIC",
   "THEME_EXTRACTION_METHOD", "get_sprinklr_base_url",
   "validate_sprinklr_config", "validate_anthropic_config",
   "validate_openai_config", "ensure_data_directory"]

/-- Reading a Boolean-valued class attribute off `Config`:
`USE_MOCK_DATA` and `USE_MULTI_AGENT` are the only ones; every name
outside `configAttrNames` (in particular `ENABLE_COMPOUND_SEARCH`)
yields `none`, i.e. raises `AttributeError` at the access site. -/
def configBoolAttr (cfg : Config) (name : String) : Option Bool :=
  if name = "USE_MOCK_DATA" then some cfg.use_mock_data
  else if name = "USE_MULTI_AGENT" then some cfg.use_multi_agent
  else none

/-! ## `src/agents/orchestrator.py` -/

/-- A `_execute_step` result dict: optional `"cases"` and
`"aggregation"` entries. -/
structure StepResult where
  cases : Option (List Case) := none
  aggregation : Option AggData := none
  deriving DecidableEq, Repr

/-- The dict returned by `Orchestrator.process_query`. -/
structure OrchResult where
  response : String
  cases_found : Nat
  query_type : String
  sources : List SourceRec
  query_plan : PlanResult
  compound_steps : Option Nat := none
  deriving DecidableEq, Repr

/-- The `plan.themes[0] if plan.themes else None`. -/
def headTheme : Option (List String) → Option String
  | some (t :: _) => some t
  | _ => none

/-- The UI-filter override of `process_query` (lines 110–118): each
truthy UI value unconditionally overwrites the agent-inferred field
(the four guarded assignments touch four distinct fields, so they are
rendered as one simultaneous update). -/
def applyUiFilters (plan : QueryPlan) (startDate endDate theme : Option String)
    (brands : Option (List String)) : QueryPlan :=
  { plan with
    themes := if truthyStr theme then some [theme.getD ""] else plan.themes,
    brands := if truthyList brands then brands else plan.brands,
    date_start := if truthyStr startDate then startDate else plan.date_start,
    date_end := if truthyStr endDate then endDate else plan.date_end }

/-- The same override applied to a compound step (lines 201–209). -/
def applyUiToStep (step : SearchStep) (startDate endDate theme : Option String)
    (brands : Option (List String)) : SearchStep :=
  { step with
    themes := if truthyStr theme then some [theme.getD ""] else step.themes,
    brands := if truthyList brands then brands else step.brands,
    date_start := if truthyStr startDate then startDate else step.date_start,
    date_end := if truthyStr endDate then endDate else step.date_end }

/-- The `Orchestrator._execute_aggregation`. -/
def executeAggregation (store : VectorStore) (plan : QueryPlan) : AggData :=
  let dist :=
    if plan.aggregation_type = some "count_by_brand" then
      ("brand_distribution", store.count_by_brand)
    else if plan.aggregation_type = some "sentiment_distribution" then
      ("sentiment_distribution", store.count_by_field "sentiment")
    else if plan.aggregation_type = some "count_by_case_type" then
      ("case_type_distribution", store.count_by_case_type)
    else if plan.aggregation_type = some "count_by_case_topic" then
      ("case_topic_distribution", store.count_by_case_topic)
    else
      ("theme_distribution", store.count_by_theme)
  { total_cases := store.get_case_count, distributions := [dist] }

/-- The `Orchestrator._execute_aggregation_step`. -/
def executeAggregationStep (store : VectorStore) (step : SearchStep) : AggData :=
  let dist :=
    if step.aggregation_type = some "count_by_brand" then
      ("brand_distribution", store.count_by_brand)
    else if step.aggregation_type = some "sentiment_distribution" then
      ("sentiment_distribution", store.count_by_field "sentiment")
    else if step.aggregation_type = some "count_by_case_type" then
      ("case_type_distribution", store.count_by_case_type)
    else if step.aggregation_type = some "count_by_case_topic" then
      ("case_topic_distribution", store.count_by_case_topic)
    else
      ("theme_distribution", store.count_by_theme)
  { total_cases := store.get_case_count, distributions := [dist] }

/-- The `Orchestrator._execute_database_query` (lines 329–379): its first
branch reads `step.group_by`, but the `SearchStep` dataclass declares no
`group_by` (nor `filters`, nor `top_n`) attribute — see `SearchStep`
above and `query_agent.py` lines 48–82 — so the attribute access raises
`AttributeError` for every step before any store call is made. -/
def executeDatabaseQuery (step : SearchStep) : Except PyErr StepResult :=
  .error .attributeErr

/-- The `metadata.get("case_number")` as used in truthiness-guarded
positions: `some n` iff the key is present with a nonzero number. -/
def truthyCaseNum (c : Case) : Option Int :=
  match c.metadata.case_number with
  | some n => if n = 0 then none else some n
  | none => none

/-- The `Orchestrator._execute_step`. -/
def executeStep (store : VectorStore) (step : SearchStep)
    (priorResults : List (SearchStep × StepResult)) : Except PyErr StepResult :=
  if step.step_type = "database_query" then
    executeDatabaseQuery step
  else if step.step_type = "aggregation" then
    .ok { aggregation := some (executeAggregationStep store step) }
  else if step.step_type = "broad_search" then
    .ok { cases := some (store.search
      { query := pyOrStr step.semantic_query "",
        n_results := min step.result_count 50,
        start_date := step.date_start, end_date := step.date_end,
        theme := headTheme step.themes, brands := step.brands }) }
  else if step.step_type = "filtered_search" then
    .ok { cases := some (store.search
      { query := pyOrStr step.semantic_query "",
        n_results := min step.result_count 10,
        start_date := step.date_start, end_date := step.date_end,
        theme := headTheme step.themes, brands := step.brands }) }
  else if step.step_type = "specific_case" then
    let caseNumbers := if truthyList step.case_numbers then step.case_numbers.getD [] else []
    let caseNumbers :=
      if step.use_prior_results && !priorResults.isEmpty then
        priorResults.foldl (fun acc prior =>
          ((prior.2.cases.getD []).take 3).foldl (fun acc c =>
            match truthyCaseNum c with
            | some n => if acc.contains n then acc else acc ++ [n]
            | none => acc) acc) caseNumbers
      else caseNumbers
    .ok { cases := some ((caseNumbers.take 3).filterMap store.get_by_case_number) }
  else
    .ok {}

/-- In-place tagging of a result case with the producing step's
`_detail_level` and `_step_purpose` (lines 221–223). -/
def tagCase (step : SearchStep) (c : Case) : Case :=
  { c with tagDetail := some step.detail_level, tagPurpose := some step.purpose }

/-- The `all_aggregations[step.purpose] = …`: dict assignment (overwrite in
place, else append). -/
def updateAgg (l : List (String × AggData)) (k : String) (v : AggData) :
    List (String × AggData) :=
  if l.any (fun p => p.1 = k) then l.map (fun p => if p.1 = k then (k, v) else p)
  else l ++ [(k, v)]

/-- The accumulating state of `_execute_compound_plan`'s step loop. -/
structure StepAccum where
  stepResults : List (SearchStep × StepResult) := []
  allCases : List Case := []
  allAggs : List (String × AggData) := []

/-- The step loop of `_execute_compound_plan` (lines 200–226): UI
overrides, execution against prior results, in-place provenance
tagging (visible both in `step_results` and in `all_cases`), and
aggregation collection.  A step exception propagates. -/
def runCompoundSteps (store : VectorStore)
    (startDate endDate theme : Option String) (brands : Option (List String)) :
    List SearchStep → StepAccum → Except PyErr StepAccum
  | [], acc => .ok acc
  | step :: rest, acc => do
    let step := applyUiToStep step startDate endDate theme brands
    let result ← executeStep store step acc.stepResults
    let result :=
      if truthyList result.cases then
        { result with cases := some ((result.cases.getD []).map (tagCase step)) }
      else result
    let acc : StepAccum :=
      { stepResults := acc.stepResults ++ [(step, result)],
        allCases := acc.allCases ++ (if truthyList result.cases then result.cases.getD [] else []),
        allAggs :=
          match result.aggregation with
          | some a => updateAgg acc.allAggs step.purpose a
          | none => acc.allAggs }
    runCompoundSteps store startDate endDate theme brands rest acc

/-- The deduplication loop of `_execute_compound_plan` (lines 228–237):
a case with a truthy (nonzero) case number is kept only on first
occurrence; a case whose case number is absent or `0` is always kept. -/
def dedupGo (seen : List Int) : List Case → List Case
  | [] => []
  | c :: rest =>
    match truthyCaseNum c with
    | some n => if seen.contains n then dedupGo seen rest
                else c :: dedupGo (n :: seen) rest
    | none => c :: dedupGo seen rest

def dedupCases (l : List Case) : List Case := dedupGo [] l

/-- The `Orchestrator._execute_compound_plan`. -/
def executeCompoundPlan (store : VectorStore) (llm : Option LlmBehavior)
    (plan : CompoundQueryPlan) (query : String)
    (startDate endDate theme : Option String) (brands : Option (List String)) :
    Except PyErr OrchResult := do
  let acc ← runCompoundSteps store startDate endDate theme brands plan.steps {}
  let uniqueCases := dedupCases acc.allCases
  let rr := responseProcessCompound llm plan uniqueCases acc.allAggs query
  -- the loop mutated each step object in place with the UI overrides, so
  -- the `plan.to_dict()` echoed to the caller carries the overridden steps
  .ok { response := rr.response,
        cases_found := rr.cases_found,
        query_type := rr.query_type,
        sources := rr.sources,
        query_plan := .compound { plan with
          steps := plan.steps.map
            (fun st => applyUiToStep st startDate endDate theme brands) },
        compound_steps := some plan.steps.length }

/-- The keyword arguments of the semantic-search call in the final
branch of `process_query` (lines 146–154): the plan's semantic query
(falling back to the raw user query), result count, date range, first
theme, and brand list. -/
def simpleSearchArgs (plan : QueryPlan) (query : String) : SearchArgs :=
  { query := pyOrStr plan.semantic_query query,
    n_results := plan.result_count,
    start_date := plan.date_start, end_date := plan.date_end,
    theme := headTheme plan.themes, brands := plan.brands }

/-- The simple-plan execution of `process_query` (lines 120–154):
case lookup, aggregation + bounded sample search, or plain filtered
semantic search. -/
def simplePlanCases (cfg : Config) (store : VectorStore) (plan : QueryPlan)
    (query : String) : List Case × Option AggData :=
  if plan.query_type = "specific_case" && truthyInt plan.case_number then
    (match store.get_by_case_number (plan.case_number.getD 0) with
     | some c => [c]
     | none => [], none)
  else if plan.query_type = "aggregation" then
    let agg := executeAggregation store plan
    let cases :=
      if truthyStr plan.semantic_query then
        store.search
          { query := plan.semantic_query.getD "",
            n_results := min plan.result_count cfg.max_context_cases_broad,
            start_date := plan.date_start, end_date := plan.date_end,
            theme := headTheme plan.themes, brands := plan.brands }
      else []
    (cases, some agg)
  else
    (store.search (simpleSearchArgs plan query), none)

/-- The `Orchestrator.process_query`.  `today` stands for `datetime.now()`.
With `enable_compound = None` the source reads
`Config.ENABLE_COMPOUND_SEARCH`, an attribute `src/config.py` never
defines (`configAttrNames`), so the lookup raises `AttributeError`. -/
def processQuery (cfg : Config) (store : VectorStore) (llm : Option LlmBehavior)
    (today : PyDate) (query : String)
    (startDate endDate theme : Option String) (brands : Option (List String))
    (enableCompound : Option Bool) : Except PyErr OrchResult := do
  let currentDate := today.format
  let ec ←
    match enableCompound with
    | some b => Except.ok b
    | none =>
      match configBoolAttr cfg "ENABLE_COMPOUND_SEARCH" with
      | some b => Except.ok b
      | none => Except.error PyErr.attributeErr
  let availableThemes := store.get_all_themes
  let availableBrands := store.get_all_brands
  let plan ← queryAgentProcess llm query availableThemes availableBrands currentDate ec
  match plan with
  | .compound cp =>
    if cp.is_compound then
      executeCompoundPlan store llm cp query startDate endDate theme brands
    else
      -- a non-compound `CompoundQueryPlan` would reach the simple branch
      -- and read `.query_type`, which the class lacks; `queryAgentProcess`
      -- never produces this shape
      .error .attributeErr
  | .simple p0 =>
    let queryPlan := applyUiFilters p0 startDate endDate theme brands
    let (cases, aggregationData) := simplePlanCases cfg store queryPlan query
    let rr := responseProcess llm queryPlan cases query aggregationData
    .ok { response := rr.response,
          cases_found := rr.cases_found,
          query_type := rr.query_type,
          sources := rr.sources,
          query_plan := .simple queryPlan }

/-! ## Concrete test fixtures

Small closed instances used by the counterexamples and by the witnesses
of the hypothesis-bearing theorems below. -/

def cfg0 : Config := {}

def caseZeroA : Case :=
  { summary := some "first", metadata := { case_number := some 0, theme := some "grief" } }

def caseZeroB : Case :=
  { summary := some "second", metadata := { case_number := some 0, theme := some "prayer" } }

def case500 : Case :=
  { summary := some "five hundred",
    metadata := { case_number := some 500, theme := some "grief", outcome := some "resolved" } }

/-- A deterministic store: the search result depends only on the query
text, so each compound step can be steered independently. -/
def wstore : VectorStore :=
  { search := fun args =>
      if args.query = "a" then [caseZeroA]
      else if args.query = "b" then [caseZeroB]
      else [case500],
    get_by_case_number := fun n => if n = 500 then some case500 else none,
    get_all_themes := ["grief", "prayer"],
    get_all_brands := ["Brand1"],
    get_case_count := 3,
    count_by_theme := [("grief", 2), ("prayer", 1)],
    count_by_brand := [("Brand1", 3)],
    count_by_case_type := [],
    count_by_case_topic := [],
    count_by_field := fun _ => [("positive", 2), ("negative", 1)] }

/-- Two broad-search steps whose results both carry case number `0`. -/
def cplanDup : CompoundQueryPlan :=
  { is_compound := true,
    steps := [{ step_type := "broad_search", purpose := "s1",
                semantic_query := some "a", detail_level := "summary" },
              { step_type := "broad_search", purpose := "s2",
                semantic_query := some "b", detail_level := "summary" }],
    synthesis_strategy := "hierarchical",
    original_query := "q" }

/-- A compound plan with no steps at all. -/
def cplanEmpty : CompoundQueryPlan :=
  { is_compound := true, steps := [], synthesis_strategy := "hierarchical",
    original_query := "q" }

/-- A parsed compound-planning response whose single `filtered_search`
step requests `result_count = 50`. -/
def jplanFiltered50 : JObj :=
  [("is_compound", .bool true),
   ("synthesis_strategy", .str "hierarchical"),
   ("steps", .arr [.obj [("step_type", .str "filtered_search"),
                         ("purpose", .str "x"),
                         ("result_count", .num 50)]])]

/-- A classifier-produced plan that inferred `theme="grief"`. -/
def planGrief : QueryPlan :=
  { query_type := "filtered_search", semantic_query := some "grief cases",
    result_count := 10, detail_level := "full_conversation",
    themes := some ["grief"] }

/-- The non-compound fallback plan for the query `"q"`. -/
def cpFallbackQ : CompoundQueryPlan :=
  { is_compound := false, steps := [], synthesis_strategy := "hierarchical",
    original_query := "q" }

/-- The phrases of the date-resolution table, in the order the source
tests them. -/
def dateTablePhrases : List String :=
  ["last 30 days", "past 30 days", "past month",
   "last week", "past week",
   "last 7 days", "past 7 days",
   "this week", "this month",
   "today", "yesterday", "recent"]


/-! # Theorems -/

/-- Claim **C1** (code bug).  The claim says `process_query` never raises and
that an omitted `enable_compound` is resolved from the global default
configuration flag.  In the source, that flag is
`Config.ENABLE_COMPOUND_SEARCH` (`orchestrator.py` line 86), but
`src/config.py` defines no such attribute (`configAttrNames`), so every
call that omits `enable_compound` raises `AttributeError` instead of
returning a result dictionary — for any query, any UI filters, any
store, any LLM behaviour. -/
theorem processQuery_enableCompound_none_raises
    (cfg : Config) (store : VectorStore) (llm : Option LlmBehavior)
    (today : PyDate) (query : String)
    (startDate endDate theme : Option String) (brands : Option (List String)) :
    processQuery cfg store llm today query startDate endDate theme brands none =
      .error .attributeErr := rfl

/-- The nonexistent flag: `"ENABLE_COMPOUND_SEARCH"` is not among the
attributes the `Config` class defines. -/
theorem enableCompoundSearch_not_a_config_attr :
    ("ENABLE_COMPOUND_SEARCH" ∈ configAttrNames) = False := by
  decide

/-- Claim **C2** (code bug).  The claim (and the spec) say a
`database_query` step filters, groups by `step.group_by`, optionally
keeps the top `top_n` groups and samples cases — which requires
`SearchStep` to carry `group_by` / `filters` / `top_n` fields.  The
`SearchStep` dataclass has none of them, so
`Orchestrator._execute_database_query`'s very first attribute access
raises `AttributeError`: every step whose `step_type` is
`"database_query"` makes `_execute_step` raise, whatever its other
fields and whatever the store holds. -/
theorem executeStep_databaseQuery_raises
    (store : VectorStore) (step : SearchStep)
    (priorResults : List (SearchStep × StepResult)) :
    executeStep store { step with step_type := "database_query" } priorResults =
      .error .attributeErr := by
  simp [executeStep, executeDatabaseQuery]

/-- Claim **C10** (confirmed).  Both `ResponseAgent.process` and
`ResponseAgent.process_compound` report `cases_found` equal to the
length of the input case list and emit exactly one citation per input
case, in input order, via `formatSource` — whose record fixes the
claimed fields (`id = "#<case_number>"`, summary truncated to 200
characters, brand, theme, channel, 10-character date prefix, outcome).
The equalities hold for every LLM behaviour, including a raising client
(whose failure only replaces the response text with the fallback
string). -/
theorem responseAgent_sources_one_per_case :
    (∀ (llm : Option LlmBehavior) (plan : QueryPlan) (cases : List Case)
       (q : String) (agg : Option AggData),
       (responseProcess llm plan cases q agg).cases_found = cases.length ∧
       (responseProcess llm plan cases q agg).sources = cases.map formatSource) ∧
    (∀ (llm : Option LlmBehavior) (cplan : CompoundQueryPlan) (cases : List Case)
       (aggs : List (String × AggData)) (q : String),
       (responseProcessCompound llm cplan cases aggs q).cases_found = cases.length ∧
       (responseProcessCompound llm cplan cases aggs q).sources = cases.map formatSource) ∧
    (∀ c : Case,
       formatSource c =
         { id := "#" ++ caseNumStr c.metadata.case_number,
           case_number := c.metadata.case_number,
           summary := strTake (c.summary.getD "") 200,
           brand := c.metadata.brand.getD "",
           theme := c.metadata.theme.getD "",
           channel := c.metadata.channel.getD "",
           date := if truthyStr c.metadata.created_at
                   then strTake (c.metadata.created_at.getD "") 10 else "",
           outcome := c.metadata.outcome.getD "" }) := by
  refine ⟨fun llm plan cases q agg => ⟨rfl, rfl⟩,
          fun llm cplan cases aggs q => ⟨rfl, rfl⟩,
          fun c => rfl⟩

/-- Claim **C3** (corrected), counterexample.  The query `"#0"` matches the
case-number pattern `#(\d+)` (the extractor returns `0`), the compound
path is not taken (no LLM client), and yet classification does not
return a `specific_case` plan: Python's `if case_number:` treats the
matched `0` as falsy, so the classifier falls through to the default
broad-search plan. -/
theorem caseNumber_fastPath_cex :
    extractCaseNumber "#0" = some 0 ∧
    queryAgentProcess none "#0" [] [] "2025-06-15" false =
      .ok (.simple { query_type := "broad_search", semantic_query := some "#0",
                     result_count := 100, detail_level := "summary" }) := by
  constructor
  · decide
  · decide

/-- Claim **C3** (corrected), amended.  For every query matching a
case-number pattern *with a nonzero matched number*, and with the
compound path not taken, classification returns the `specific_case`
plan with that case number, `result_count = 1`,
`detail_level = full_conversation` and a null semantic query — whatever
other aggregation/theme keywords the query contains, since the fast
path returns before those checks run. -/
theorem caseNumber_fastPath
    (llm : Option LlmBehavior) (ec : Bool) (q : String)
    (themes brands : List String) (cd : String) (n : Int)
    (hcomp : tryCompound llm ec q cd = none)
    (hn : extractCaseNumber q = some n) (hnz : n ≠ 0) :
    queryAgentProcess llm q themes brands cd ec =
      .ok (.simple { query_type := "specific_case", case_number := some n,
                     semantic_query := none, result_count := 1,
                     detail_level := "full_conversation" }) := by
  unfold queryAgentProcess
  rw [hcomp, hn]
  simp [truthyInt, hnz]

/-- Witness for `caseNumber_fastPath` at the claim's own example. -/
theorem caseNumber_fastPath_witness :
    queryAgentProcess none "case #12345" [] [] "2025-06-15" false =
      .ok (.simple { query_type := "specific_case", case_number := some 12345,
                     semantic_query := none, result_count := 1,
                     detail_level := "full_conversation" }) :=
  caseNumber_fastPath none false "case #12345" [] [] "2025-06-15" 12345
    rfl (by decide) (by decide)

/-- Bundles an `isOk` fact into the witnessing `ok` value. -/
theorem exists_ok_of_isOk {α : Type} {e : Except PyErr α} (h : e.isOk = true) :
    ∃ d, e = .ok d := by
  cases e with
  | ok d => exact ⟨d, rfl⟩
  | error e => cases h

/-- Overflow-safe date arithmetic makes the resolver `extractDateRange`
total. -/
theorem extractDateRange_isOk (q cd : String) (hd : dateArithSafe cd = true) :
    ∃ ds de, extractDateRange q cd = .ok (ds, de) := by
  unfold dateArithSafe at hd
  cases hp : parsePyDate cd with
  | none => rw [hp] at hd; cases hd
  | some t =>
    rw [hp] at hd
    simp only [Bool.and_eq_true] at hd
    obtain ⟨⟨⟨⟨h30, h14⟩, h7⟩, h1⟩, hw⟩ := hd
    obtain ⟨d30, e30⟩ := exists_ok_of_isOk h30
    obtain ⟨d14, e14⟩ := exists_ok_of_isOk h14
    obtain ⟨d7, e7⟩ := exists_ok_of_isOk h7
    obtain ⟨d1, e1⟩ := exists_ok_of_isOk h1
    obtain ⟨dw, ew⟩ := exists_ok_of_isOk hw
    unfold extractDateRange
    rw [hp]
    dsimp only
    split_ifs <;> simp [e30, e14, e7, e1, ew]

/-- Claim **C4** (corrected), counterexample.  All of the claim's
conditions hold at the query `"how many in the past week"` with the
well-formed ISO current date `"0001-01-05"` — an aggregation keyword,
no case-number pattern, no compound path — yet classification raises
an uncaught `OverflowError` instead of returning the aggregation plan:
the resolved `past week` subtraction falls before `date.min`, and
nothing in `query_agent.py` catches it. -/
theorem aggregation_fastPath_cex :
    validDateStr "0001-01-05" = true ∧
    isAggregationQuery "how many in the past week" = true ∧
    extractCaseNumber "how many in the past week" = none ∧
    queryAgentProcess none "how many in the past week" [] [] "0001-01-05" false =
      .error .overflowErr := by
  refine ⟨by decide, by decide, by decide, by decide⟩

/-- Claim **C4** (corrected), amended.  A query containing an aggregation
keyword and matching no case-number pattern (with the compound path not
taken), *whose date-phrase resolution succeeds* — i.e. the current date
minus the matched phrase's timedelta stays within `datetime`'s range,
as it always does for the orchestrator-supplied current date —
classifies as the `aggregation` plan: `result_count = 50`,
`detail_level = metadata_only`, the resolved date range, and the
keyword-selected aggregation type — `count_by_brand` if the query
contains `"brand"`, else `sentiment_distribution` if it contains
`"sentiment"`, else `count_by_theme`. -/
theorem aggregation_fastPath
    (llm : Option LlmBehavior) (ec : Bool) (q : String)
    (themes brands : List String) (cd : String) (ds de : Option String)
    (hcomp : tryCompound llm ec q cd = none)
    (hn : extractCaseNumber q = none)
    (ha : isAggregationQuery q = true)
    (hdr : extractDateRange q cd = .ok (ds, de)) :
    queryAgentProcess llm q themes brands cd ec =
      .ok (.simple
        { query_type := "aggregation", semantic_query := some q,
          result_count := 50, detail_level := "metadata_only",
          date_start := ds, date_end := de,
          aggregation_type := some
            (if strContains (strLower q) "brand" then "count_by_brand"
             else if strContains (strLower q) "sentiment" then "sentiment_distribution"
             else "count_by_theme") }) := by
  unfold queryAgentProcess createAggregationPlan
  rw [hcomp, hn, ha]
  simp [truthyInt, hdr]

/-- Witness for `aggregation_fastPath` at the spec's worked example. -/
theorem aggregation_fastPath_witness :
    queryAgentProcess none "How many cases per brand?" [] [] "2025-06-15" false =
      .ok (.simple
        { query_type := "aggregation",
          semantic_query := some "How many cases per brand?",
          result_count := 50, detail_level := "metadata_only",
          date_start := none, date_end := none,
          aggregation_type := some
            (if strContains (strLower "How many cases per brand?") "brand" then "count_by_brand"
             else if strContains (strLower "How many cases per brand?") "sentiment" then "sentiment_distribution"
             else "count_by_theme") }) :=
  aggregation_fastPath none false "How many cases per brand?" [] [] "2025-06-15"
    none none rfl (by decide) (by decide) (by decide)

/-- Claim **C5** (confirmed).  Date-phrase resolution is the pure function
`extractDateRange` of the query and the current date:
`"last 30 days"` at `2025-06-15` resolves to
`(2025-05-16, 2025-06-15)`; `"this week"` at `2025-06-15` (a Sunday)
starts at the preceding Monday `2025-06-09`; a query containing no
phrase of the fixed table resolves to `(null, null)`; and the first
matching phrase in table order wins — a query containing both
`"this week"` and `"past month"` resolves by the earlier 30-day rule. -/
theorem dateRange_resolution :
    (extractDateRange "most common questions in the last 30 days" "2025-06-15" =
       .ok (some "2025-05-16", some "2025-06-15")) ∧
    (extractDateRange "cases from this week" "2025-06-15" =
       .ok (some "2025-06-09", some "2025-06-15")) ∧
    (∀ q cd, validDateStr cd = true →
       dateTablePhrases.all (fun p => !strContains (strLower q) p) = true →
       extractDateRange q cd = .ok (none, none)) ∧
    (extractDateRange "this week versus the past month" "2025-06-15" =
       .ok (some "2025-05-16", some "2025-06-15")) := by
  refine ⟨by decide, by decide, ?_, by decide⟩
  intro q cd hd hall
  simp only [dateTablePhrases, List.all_cons, List.all_nil, Bool.and_eq_true,
    Bool.not_eq_true'] at hall
  obtain ⟨h1, h2, h3, h4, h5, h6, h7, h8, h9, h10, h11, h12, -⟩ := hall
  obtain ⟨t, ht⟩ := Option.isSome_iff_exists.mp hd
  unfold extractDateRange
  rw [ht]
  simp [h1, h2, h3, h4, h5, h6, h7, h8, h9, h10, h11, h12]

/-- Witness for the no-phrase clause of `dateRange_resolution`. -/
theorem dateRange_resolution_witness :
    extractDateRange "what do people ask about prayer" "2025-06-15" = .ok (none, none) :=
  dateRange_resolution.2.2.1 "what do people ask about prayer" "2025-06-15"
    (by decide) (by decide)

/-- Claim **C7** (confirmed).  On the simple-plan path, every UI-supplied
(truthy) `theme`, `brands`, `start_date`, `end_date` overwrites the
corresponding plan field (last write wins, not a union), and for the
search query types the executed store call takes its arguments — in
particular the theme — from the overwritten plan. -/
theorem uiFilter_override
    (p : QueryPlan) (q : String) (sd ed th : Option String)
    (bs : Option (List String)) (cfg : Config) (store : VectorStore) :
    (∀ t, th = some t → t ≠ "" →
       (applyUiFilters p sd ed th bs).themes = some [t]) ∧
    (∀ l, bs = some l → l ≠ [] →
       (applyUiFilters p sd ed th bs).brands = some l) ∧
    (∀ s, sd = some s → s ≠ "" →
       (applyUiFilters p sd ed th bs).date_start = some s) ∧
    (∀ s, ed = some s → s ≠ "" →
       (applyUiFilters p sd ed th bs).date_end = some s) ∧
    ((applyUiFilters p sd ed th bs).query_type ≠ "specific_case" →
     (applyUiFilters p sd ed th bs).query_type ≠ "aggregation" →
     simplePlanCases cfg store (applyUiFilters p sd ed th bs) q =
       (store.search (simpleSearchArgs (applyUiFilters p sd ed th bs) q), none)) ∧
    (∀ t, th = some t → t ≠ "" →
       (simpleSearchArgs (applyUiFilters p sd ed th bs) q).theme = some t) := by
  refine ⟨?_, ?_, ?_, ?_, ?_, ?_⟩
  · intro t ht hne; subst ht; simp [applyUiFilters, truthyStr, hne]
  · intro l hl hne; subst hl; simp [applyUiFilters, truthyList, hne]
  · intro s hs hne; subst hs; simp [applyUiFilters, truthyStr, hne]
  · intro s hs hne; subst hs; simp [applyUiFilters, truthyStr, hne]
  · intro h1 h2; simp [simplePlanCases, h1, h2]
  · intro t ht hne; subst ht
    simp [simpleSearchArgs, applyUiFilters, headTheme, truthyStr, hne]

/-- Witness for `uiFilter_override`: the classifier inferred
`theme="grief"` (`planGrief`), the UI passes `theme="prayer"`, and the
executed search is filtered by `"prayer"`. -/
theorem uiFilter_override_witness :
    (applyUiFilters planGrief none none (some "prayer") none).themes = some ["prayer"] ∧
    simplePlanCases cfg0 wstore (applyUiFilters planGrief none none (some "prayer") none)
        "show grief cases" =
      (wstore.search (simpleSearchArgs
          (applyUiFilters planGrief none none (some "prayer") none) "show grief cases"),
       none) ∧
    (simpleSearchArgs (applyUiFilters planGrief none none (some "prayer") none)
        "show grief cases").theme = some "prayer" :=
  ⟨(uiFilter_override planGrief "show grief cases" none none (some "prayer") none
      cfg0 wstore).1 "prayer" rfl (by decide),
   (uiFilter_override planGrief "show grief cases" none none (some "prayer") none
      cfg0 wstore).2.2.2.2.1 (by decide) (by decide),
   (uiFilter_override planGrief "show grief cases" none none (some "prayer") none
      cfg0 wstore).2.2.2.2.2 "prayer" rfl (by decide)⟩

/-- Values returned by `jMin50` really are capped at 50. -/
theorem jMin50_le (v : Jval) (n : Int) (h : jMin50 v = .ok n) : n ≤ 50 := by
  cases v <;> simp [jMin50] at h <;> omega

/-- A step built from JSON carries `result_count ≤ 50`. -/
theorem buildSearchStep_result_le (d : JObj) (q cd : String) (s : SearchStep)
    (h : buildSearchStep d q cd = .ok s) : s.result_count ≤ 50 := by
  unfold buildSearchStep at h
  cases hx : stepDates d q cd with
  | error e => rw [hx] at h; cases h
  | ok dates =>
    rw [hx] at h
    cases hy : jMin50 (jGet d "result_count" (Jval.num 10)) with
    | error e => rw [hy] at h; cases h
    | ok resultCount =>
      rw [hy] at h
      cases h
      exact jMin50_le _ _ hy

/-- Every step produced by the step-list builder carries
`result_count ≤ 50`. -/
theorem buildStepList_result_le (q cd : String) :
    ∀ (l : List Jval) (steps : List SearchStep),
      buildStepList q cd l = .ok steps → ∀ s ∈ steps, s.result_count ≤ 50 := by
  intro l
  induction l with
  | nil => intro steps h s hs; simp [buildStepList] at h; subst h; simp at hs
  | cons v rest ih =>
    intro steps h s hs
    unfold buildStepList at h
    cases hv : buildStepOfJval q cd v with
    | error e => rw [hv] at h; cases h
    | ok s0 =>
      rw [hv] at h
      cases hr : buildStepList q cd rest with
      | error e => rw [hr] at h; cases h
      | ok rests =>
        rw [hr] at h
        cases h
        rcases List.mem_cons.mp hs with h1 | h2
        · subst h1
          unfold buildStepOfJval at hv
          cases v <;> simp at hv
          exact buildSearchStep_result_le _ _ _ _ hv
        · exact ih rests hr s h2

theorem buildSteps_result_le (v : Jval) (q cd : String) (steps : List SearchStep)
    (h : buildSteps v q cd = .ok steps) : ∀ s ∈ steps, s.result_count ≤ 50 := by
  cases v <;> simp [buildSteps] at h
  case arr l => exact buildStepList_result_le q cd l steps h
  case str s =>
    split at h
    · cases h; simp
    · cases h
  case obj l =>
    split at h
    · cases h; simp
    · cases h

/-- Claim **C8** (corrected), counterexample.  The classifier caps a step's
`result_count` only at 50, whatever its `step_type`: a compound-plan
JSON whose single `filtered_search` step asks for 50 results yields a
`CompoundQueryPlan` whose step carries `result_count = 50`, above the
claimed per-type cap of 10. -/
theorem compoundPlan_caps_cex :
    (createCompoundPlan (.ok (some jplanFiltered50)) "q" "2025-06-15").map
        (fun cp => cp.steps.map (fun s => (s.step_type, s.result_count))) =
      .ok [("filtered_search", 50)] ∧ ¬ (50 : Int) ≤ 10 := by
  constructor
  · decide
  · decide

/-- Claim **C8** (corrected), amended.  Every `CompoundQueryPlan` the
classifier builds has at most 4 steps and every step's `result_count`
field is at most 50; the per-step-type caps — 50 for `broad_search`, 10
for `filtered_search`, at most 3 fetched cases for `specific_case` —
are enforced at execution time by the step executor, not on the plan
field. -/
theorem compoundPlan_caps (outcome : Except PyErr (Option JObj)) (q cd : String)
    (cp : CompoundQueryPlan) (h : createCompoundPlan outcome q cd = .ok cp) :
    cp.steps.length ≤ 4 ∧
    (∀ s ∈ cp.steps, s.result_count ≤ 50) ∧
    (∀ (store : VectorStore) (step : SearchStep)
       (prior : List (SearchStep × StepResult)),
       executeStep store { step with step_type := "filtered_search" } prior =
         .ok { cases := some (store.search
           { query := pyOrStr step.semantic_query "",
             n_results := min step.result_count 10,
             start_date := step.date_start, end_date := step.date_end,
             theme := headTheme step.themes, brands := step.brands }) }) ∧
    (∀ (store : VectorStore) (step : SearchStep)
       (prior : List (SearchStep × StepResult)),
       executeStep store { step with step_type := "broad_search" } prior =
         .ok { cases := some (store.search
           { query := pyOrStr step.semantic_query "",
             n_results := min step.result_count 50,
             start_date := step.date_start, end_date := step.date_end,
             theme := headTheme step.themes, brands := step.brands }) }) ∧
    (∀ (store : VectorStore) (step : SearchStep)
       (prior : List (SearchStep × StepResult)) (r : StepResult) (cs : List Case),
       executeStep store { step with step_type := "specific_case" } prior = .ok r →
       r.cases = some cs → cs.length ≤ 3) := by
  refine ⟨?_, ?_, fun store step prior => rfl, fun store step prior => rfl, ?_⟩
  · unfold createCompoundPlan at h
    cases outcome with
    | error e => simp at h
    | ok o =>
      cases o with
      | none => simp at h; rw [← h]; simp
      | some d =>
        simp at h
        split at h
        · cases h; simp
        · cases hb : buildSteps (jGet d "steps" (.arr [])) q cd with
          | ok steps =>
              rw [hb] at h; cases h
              simp [List.length_take]
          | error e =>
              rw [hb] at h
              cases e <;> simp at h
              cases h; simp
  · unfold createCompoundPlan at h
    cases outcome with
    | error e => simp at h
    | ok o =>
      cases o with
      | none => simp at h; rw [← h]; simp
      | some d =>
        simp at h
        split at h
        · cases h; simp
        · cases hb : buildSteps (jGet d "steps" (.arr [])) q cd with
          | ok steps =>
              rw [hb] at h; cases h
              intro s hs
              exact buildSteps_result_le _ q cd steps hb s (List.take_subset 4 steps hs)
          | error e =>
              rw [hb] at h
              cases e <;> simp at h
              cases h; simp
  · intro store step prior r cs hr hcs
    obtain ⟨cn, hcn⟩ :
        ∃ cn : List Int,
          executeStep store { step with step_type := "specific_case" } prior =
            .ok { cases := some ((cn.take 3).filterMap store.get_by_case_number) } :=
      ⟨_, rfl⟩
    rw [hcn] at hr
    cases hr
    simp only [Option.some.injEq] at hcs
    subst hcs
    calc ((cn.take 3).filterMap store.get_by_case_number).length
        ≤ (cn.take 3).length := List.length_filterMap_le _ _
      _ ≤ 3 := by simp [List.length_take]

/-- Witness for `compoundPlan_caps`, at the non-compound fallback a
failed JSON extraction produces. -/
theorem compoundPlan_caps_witness :
    cpFallbackQ.steps.length ≤ 4 ∧
    (∀ s ∈ cpFallbackQ.steps, s.result_count ≤ 50) ∧
    (∀ (store : VectorStore) (step : SearchStep)
       (prior : List (SearchStep × StepResult)),
       executeStep store { step with step_type := "filtered_search" } prior =
         .ok { cases := some (store.search
           { query := pyOrStr step.semantic_query "",
             n_results := min step.result_count 10,
             start_date := step.date_start, end_date := step.date_end,
             theme := headTheme step.themes, brands := step.brands }) }) ∧
    (∀ (store : VectorStore) (step : SearchStep)
       (prior : List (SearchStep × StepResult)),
       executeStep store { step with step_type := "broad_search" } prior =
         .ok { cases := some (store.search
           { query := pyOrStr step.semantic_query "",
             n_results := min step.result_count 50,
             start_date := step.date_start, end_date := step.date_end,
             theme := headTheme step.themes, brands := step.brands }) }) ∧
    (∀ (store : VectorStore) (step : SearchStep)
       (prior : List (SearchStep × StepResult)) (r : StepResult) (cs : List Case),
       executeStep store { step with step_type := "specific_case" } prior = .ok r →
       r.cases = some cs → cs.length ≤ 3) :=
  compoundPlan_caps (.ok none) "q" "2025-06-15" cpFallbackQ (by decide)

/-- The dedup loop keeps exactly the first case bearing a given truthy
case number, whatever was already seen. -/
theorem dedupGo_filter_eq (n : Int) :
    ∀ (l : List Case) (seen : List Int),
      (dedupGo seen l).filter (fun c => truthyCaseNum c == some n) =
        if seen.contains n then []
        else (l.filter (fun c => truthyCaseNum c == some n)).take 1 := by
  intro l
  induction l with
  | nil => intro seen; simp [dedupGo]
  | cons c rest ih =>
    intro seen
    cases h : truthyCaseNum c with
    | none =>
      have hp : (truthyCaseNum c == some n) = false := by rw [h]; rfl
      simp only [dedupGo, h, List.filter_cons, hp, Bool.false_eq_true, ite_false]
      exact ih seen
    | some m =>
      by_cases hmn : m = n
      · subst hmn
        have hp : (truthyCaseNum c == some m) = true := by
          rw [h]; exact beq_self_eq_true (some m)
        by_cases hin : seen.contains m
        · have hmem : m ∈ seen := by simpa using hin
          simp only [dedupGo, h, hin, ite_true]
          rw [ih seen]
          simp [hin, hmem]
        · have hin' : seen.contains m = false := by simpa using hin
          have hnotmem : ¬ m ∈ seen := by simpa using hin
          simp only [dedupGo, h, hin', Bool.false_eq_true, ite_false]
          simp only [List.filter_cons, hp, ite_true]
          rw [ih (m :: seen)]
          have hc : (m :: seen).contains m = true := by simp
          rw [hc]
          simp [hin', hnotmem, List.take]
      · have hp : (truthyCaseNum c == some n) = false := by
          rw [h]
          exact beq_false_of_ne (fun hh => hmn (Option.some.inj hh))
        by_cases hin : seen.contains m
        · simp only [dedupGo, h, hin, ite_true]
          rw [ih seen]
          simp [List.filter_cons, hp]
        · have hin' : seen.contains m = false := by simpa using hin
          simp only [dedupGo, h, hin', Bool.false_eq_true, ite_false]
          simp only [List.filter_cons, hp, Bool.false_eq_true, ite_false]
          rw [ih (m :: seen)]
          have hc : (m :: seen).contains n = seen.contains n := by
            simp only [List.contains_cons, beq_false_of_ne (Ne.symm hmn), Bool.false_or]
          rw [hc]

/-- The dedup loop never removes a case whose case number is absent or
zero. -/
theorem dedupGo_filter_none :
    ∀ (l : List Case) (seen : List Int),
      (dedupGo seen l).filter (fun c => (truthyCaseNum c).isNone) =
        l.filter (fun c => (truthyCaseNum c).isNone) := by
  intro l
  induction l with
  | nil => intro seen; simp [dedupGo]
  | cons c rest ih =>
    intro seen
    cases h : truthyCaseNum c with
    | none =>
      simp only [dedupGo, h, List.filter_cons, Option.isNone_none, ite_true]
      rw [ih seen]
    | some m =>
      have hp : (truthyCaseNum c).isNone = false := by rw [h]; rfl
      by_cases hin : seen.contains m
      · simp only [dedupGo, h, hin, ite_true]
        rw [ih seen]
        simp [List.filter_cons, hp]
      · have hin' : seen.contains m = false := by
          exact Bool.not_eq_true _ ▸ (by simpa using hin)
        simp only [dedupGo, h, hin', Bool.false_eq_true, ite_false, List.filter_cons, hp]
        exact ih (m :: seen)

/-- Claim **C6** (corrected), counterexample.  Two different steps of
`cplanDup` each return a case with the *same* case number, namely `0`
(the value the ingestion layer stores when a case lacks a number), and
the final cited sources list contains *two* entries for that case
number — Python's truthiness test exempts `0` from deduplication. -/
theorem compound_dedup_cex :
    (executeCompoundPlan wstore none cplanDup "q" none none none none).map
        (fun r => r.sources.map (fun s => (s.case_number, s.summary))) =
      .ok [(some 0, "first"), (some 0, "second")] := by
  decide

/-- Claim **C6** (corrected), amended.  In a compound run, the cited sources
are exactly the accumulated cases deduplicated by case number, where —
for every *nonzero* case number — exactly the first occurrence (the one
produced by the earliest step) survives, and every case whose case
number is absent or `0` is kept, never deduplicated away. -/
theorem compound_dedup_first_occurrence :
    (∀ (store : VectorStore) (llm : Option LlmBehavior) (plan : CompoundQueryPlan)
       (q : String) (sd ed th : Option String) (br : Option (List String))
       (acc : StepAccum),
       runCompoundSteps store sd ed th br plan.steps {} = .ok acc →
       ∃ r, executeCompoundPlan store llm plan q sd ed th br = .ok r ∧
         r.sources = formatSources (dedupCases acc.allCases)) ∧
    (∀ (cases : List Case) (n : Int),
       (dedupCases cases).filter (fun c => truthyCaseNum c == some n) =
         (cases.filter (fun c => truthyCaseNum c == some n)).take 1) ∧
    (∀ cases : List Case,
       (dedupCases cases).filter (fun c => (truthyCaseNum c).isNone) =
         cases.filter (fun c => (truthyCaseNum c).isNone)) := by
  refine ⟨?_, ?_, ?_⟩
  · intro store llm plan q sd ed th br acc hacc
    unfold executeCompoundPlan
    rw [hacc]
    exact ⟨_, rfl, rfl⟩
  · intro cases n
    have := dedupGo_filter_eq n cases []
    simpa [dedupCases] using this
  · intro cases
    exact dedupGo_filter_none cases []

/-- Witness for `compound_dedup_first_occurrence` at a compound plan
with no steps. -/
theorem compound_dedup_witness :
    ∃ r, executeCompoundPlan wstore none cplanEmpty "q" none none none none = .ok r ∧
      r.sources = formatSources (dedupCases ({} : StepAccum).allCases) :=
  compound_dedup_first_occurrence.1 wstore none cplanEmpty "q" none none none none {} rfl

/-- Overflow-safe date arithmetic makes the aggregation-plan builder
total. -/
theorem createAggregationPlan_isOk (q cd : String) (hd : dateArithSafe cd = true) :
    ∃ p, createAggregationPlan q cd = .ok p := by
  obtain ⟨ds, de, hdr⟩ := extractDateRange_isOk q cd hd
  unfold createAggregationPlan
  rw [hdr]
  exact ⟨_, rfl⟩

/-- Claim **C9** (corrected), counterexample.  At the well-formed ISO
current date `"0001-01-01"` the query `"yesterday"` makes
`QueryAgent.process` raise an uncaught `OverflowError` to its caller:
the resolver's `today - timedelta(days=1)` falls before `date.min`, and
only completion-capability call sites are wrapped in `try/except` —
`_extract_date_range` is not. -/
theorem classification_total_cex :
    validDateStr "0001-01-01" = true ∧
    queryAgentProcess none "yesterday" [] [] "0001-01-01" false =
      .error .overflowErr := by
  refine ⟨by decide, by decide⟩

/-- Claim **C9** (corrected), amended.  First conjunct: for every query,
filter vocabulary, compound flag and LLM behaviour (including clients
that raise at any call site), classification returns a plan and never
raises, *provided the current date's `timedelta` subtractions stay
inside `datetime`'s range* (`dateArithSafe`, true of every
`datetime.now()`): every completion-capability exception is caught, and
the only uncaught exception is the date resolver's `OverflowError` at
the far boundary of the supported calendar.  Second conjunct,
unchanged: when no case-number / aggregation / theme / brand / date
signal is present and no LLM result applies (no client, or the
classification call raised), the result is the default plan:
`broad_search`, `result_count = 100`, `detail_level = summary`, the raw
query as semantic query. -/
theorem classification_total :
    (∀ (llm : Option LlmBehavior) (q : String) (themes brands : List String)
       (cd : String) (ec : Bool), dateArithSafe cd = true →
       ∃ pr, queryAgentProcess llm q themes brands cd ec = .ok pr) ∧
    (∀ (llm : Option LlmBehavior) (q : String) (themes brands : List String)
       (cd : String) (ec : Bool),
       validDateStr cd = true →
       tryCompound llm ec q cd = none →
       (∀ b, llm = some b → ∃ e, b.classifyCall = .error e) →
       extractCaseNumber q = none →
       isAggregationQuery q = false →
       detectThemes q themes = [] →
       detectBrands q brands = [] →
       extractDateRange q cd = .ok (none, none) →
       queryAgentProcess llm q themes brands cd ec =
         .ok (.simple { query_type := "broad_search", semantic_query := some q,
                        result_count := 100, detail_level := "summary" })) := by
  constructor
  · intro llm q themes brands cd ec hd
    unfold queryAgentProcess
    cases htc : tryCompound llm ec q cd with
    | some cp => exact ⟨_, rfl⟩
    | none =>
      by_cases hcn : truthyInt (extractCaseNumber q) = true
      · rw [if_pos hcn]; exact ⟨_, rfl⟩
      · rw [if_neg hcn]
        by_cases hagg : isAggregationQuery q = true
        · rw [if_pos hagg]
          obtain ⟨p, hp⟩ := createAggregationPlan_isOk q cd hd
          rw [hp]
          exact ⟨_, rfl⟩
        · rw [if_neg hagg]
          obtain ⟨ds, de, hdr⟩ := extractDateRange_isOk q cd hd
          rw [hdr]
          cases llm with
          | none => exact ⟨_, rfl⟩
          | some b =>
            dsimp only
            cases hpw : processWithLlm b q cd with
            | ok p => exact ⟨_, rfl⟩
            | error e => exact ⟨_, rfl⟩
  · intro llm q themes brands cd ec hd htc hllm hcn hagg hth hbr hdr
    unfold queryAgentProcess
    have hcn' : truthyInt (extractCaseNumber q) = false := by rw [hcn]; rfl
    rw [htc]
    simp only [hcn', hagg, Bool.false_eq_true, ite_false]
    rw [hdr]
    cases llm with
    | none =>
      simp only [hth, hbr]
      rfl
    | some b =>
      obtain ⟨e, he⟩ := hllm b rfl
      simp only [processWithLlm, he, hth, hbr]
      rfl

/-- Witness for `classification_total` on a signal-free query without a
client. -/
theorem classification_total_witness :
    queryAgentProcess none "zzz unusual question" [] [] "2025-06-15" true =
      .ok (.simple { query_type := "broad_search",
                     semantic_query := some "zzz unusual question",
                     result_count := 100, detail_level := "summary" }) :=
  classification_total.2 none "zzz unusual question" [] [] "2025-06-15" true
    (by decide) rfl (fun b hb => by cases hb) (by decide) (by decide)
    rfl rfl (by decide)

end Chatbot











